import Mathlib

/-!
Verification of the FBX binary pull parser and simple loader
(repository fbxcel-legacy), as a shallow embedding in Lean 4.

Layer 1 embeds the byte-level pull parser of src/parser/binary
(module reader.rs, mod.rs, event/mod.rs): a source is a byte list with a
cursor, and the parser is a state machine threading an explicit
RootParser record exactly as the Rust code threads its mutable self.
The Rust Result-with-mutation signatures become functions returning a
pair of an Except value and the updated record; a Rust panic (assert,
expect, unreachable) is modelled by the distinguished error value
Err.assertionFailed, which aborts the current call like the panic
aborts the Rust program.

Layer 2 embeds the loader of src/loader/binary/simple over the
event-level interface of the parser (the Parser trait): node attributes
arrive already decoded, and a parser is a list of remaining events with
the current open-node depth. Floating point values are carried as their
64-bit little-endian bit patterns; the loaders under verification never
do arithmetic on them.
-/

namespace Fbx

set_option maxRecDepth 40000

/-- Bytes are natural numbers below 256; the bound is never needed by the
parser logic, so it is not carried in the type. -/
abbrev Byte := Nat

/-- Parse error (src/parser/binary/error.rs, enum Error), extended with
assertionFailed which stands for a Rust panic and ioError which stands
for an io Error value (premature end of stream). -/
inductive Err where
  | brokenFbxFooter
  | finished
  | headerFooterVersionMismatch (header footer : Nat)
  | invalidNodeAttributeTypeCode (got position : Nat)
  | magicNotDetected (got : List Byte)
  | nodeNameInvalidUtf8
  | ioError
  | unknownArrayAttributeEncoding (encoding : Nat)
  | wrongNodeEndOffset (nbegin expectedEnd realEnd : Nat)
  | assertionFailed
deriving Repr, DecidableEq

/-- Parser warning (src/parser/binary/error.rs, enum Warning). -/
inductive Warning where
  | invalidBooleanAttributeValue (got : Byte) (assumed : Bool) (position : Nat)
  | invalidPaddingInFbxFooter (expected actual : Nat)
  | unexpectedBytesAfterMagic (got : List Byte)
deriving Repr, DecidableEq

/-- A byte source with a tracked position: data is the whole underlying
stream and pos the number of bytes consumed so far.  This models both
BasicSource and SeekableSource of src/parser/binary/reader.rs, whose
only state is the wrapped reader and the position counter. -/
structure Source where
  data : List Byte
  pos : Nat
deriving Repr, DecidableEq

/-- ParserSource::position. -/
def Source.position (s : Source) : Nat := s.pos

/-- Read::read_exact on a position-tracking source: returns the next n
bytes and advances the position; fails with an io error (position
unchanged, as BasicSource only bumps its counter after a successful
read) when fewer than n bytes remain. -/
def Source.read_exact (s : Source) (n : Nat) : Except Err (List Byte) × Source :=
  if s.pos + n ≤ s.data.length then
    (.ok ((s.data.drop s.pos).take n), { s with pos := s.pos + n })
  else
    (.error .ioError, s)

/-- Little-endian interpretation of a byte list, first byte least
significant (ReadLittleEndian of reader.rs). -/
def leNat (bs : List Byte) : Nat :=
  bs.foldr (fun b acc => b + 256 * acc) 0

/-- ReadLittleEndian::read_u8. -/
def Source.read_u8 (s : Source) : Except Err Nat × Source :=
  match s.read_exact 1 with
  | (.ok bs, s') => (.ok (leNat bs), s')
  | (.error e, s') => (.error e, s')

/-- ReadLittleEndian::read_u32. -/
def Source.read_u32 (s : Source) : Except Err Nat × Source :=
  match s.read_exact 4 with
  | (.ok bs, s') => (.ok (leNat bs), s')
  | (.error e, s') => (.error e, s')

/-- ReadLittleEndian::read_u64. -/
def Source.read_u64 (s : Source) : Except Err Nat × Source :=
  match s.read_exact 8 with
  | (.ok bs, s') => (.ok (leNat bs), s')
  | (.error e, s') => (.error e, s')

/-- The discard loop inside BasicSource::skip_to: while more than 256
bytes remain to be skipped, read 256 bytes into a scratch buffer, then
read the remainder.  The loop is phrased with the number k of full
256-byte iterations as a structural recursion argument; the sequence of
reads issued is exactly that of the Rust while loop. -/
def Source.skipChunkLoop (s : Source) (k : Nat) (tail : Nat) : Except Err Unit × Source :=
  match k with
  | 0 =>
    match s.read_exact tail with
    | (.ok _, s') => (.ok (), s')
    | (.error e, s') => (.error e, s')
  | k' + 1 =>
    match s.read_exact 256 with
    | (.ok _, s') => s'.skipChunkLoop k' tail
    | (.error e, s') => (.error e, s')

/-- BasicSource::skip_to: asserts that the destination is not behind the
current position (a Rust panic otherwise), then discards bytes with the
buffered loop; with rest bytes to skip the Rust loop performs
(rest - 1) / 256 reads of 256 bytes and one final read of the rest.
The trailing assert_eq of the Rust code always holds on the success
path and is therefore not re-checked here. -/
def Source.skip_to (s : Source) (dest_pos : Nat) : Except Err Unit × Source :=
  if dest_pos < s.pos then
    (.error .assertionFailed, s)
  else
    s.skipChunkLoop ((dest_pos - s.pos - 1) / 256)
      (dest_pos - s.pos - 256 * ((dest_pos - s.pos - 1) / 256))

/-- std io SeekFrom. -/
inductive SeekFrom where
  | start (v : Nat)
  | current (v : Int)
  | fromEnd (v : Int)
deriving Repr, DecidableEq

/-- SeekableSource::seek over a cursor-like underlying stream: the new
absolute position is adopted as the tracked position.  A negative final
position is an io error of the underlying seek. -/
def Source.seek (s : Source) (sf : SeekFrom) : Except Err Nat × Source :=
  match sf with
  | .start v => (.ok v, { s with pos := v })
  | .current d =>
    if (s.pos : Int) + d < 0 then (.error .ioError, s)
    else
      let np := ((s.pos : Int) + d).toNat
      (.ok np, { s with pos := np })
  | .fromEnd d =>
    if (s.data.length : Int) + d < 0 then (.error .ioError, s)
    else
      let np := ((s.data.length : Int) + d).toNat
      (.ok np, { s with pos := np })

/-- LimitedSeekReader (reader.rs): a window [wbegin, wend] over a
seekable source, with its own relative cursor.  Attribute sub-readers
of special attributes are such windows over the parser source. -/
structure LimitedSeekReader where
  src : Source
  current : Nat
  wbegin : Nat
  wend : Nat
deriving Repr, DecidableEq

/-- LimitedSeekReader::len (asserts wbegin less or equal wend in Rust;
Nat subtraction makes the value 0 in the impossible case). -/
def LimitedSeekReader.len (r : LimitedSeekReader) : Nat := r.wend - r.wbegin

/-- LimitedSeekReader::rest_len. -/
def LimitedSeekReader.rest_len (r : LimitedSeekReader) : Nat := r.wend - r.current

/-- LimitedSeekReader::rel_pos. -/
def LimitedSeekReader.rel_pos (r : LimitedSeekReader) : Nat := r.current - r.wbegin

/-- LimitedSeekReader::seek (reader.rs lines 344-375): clamps the
requested position to the window, seeks the underlying source, adopts
the resulting absolute position as the cursor and returns the relative
position.  The Rust asserts on target are modelled as checks failing
with assertionFailed. -/
def LimitedSeekReader.seek (r : LimitedSeekReader) (pos : SeekFrom) :
    Except Err Nat × LimitedSeekReader :=
  match pos with
  | .start val =>
    let offset := min r.len val
    let target := r.wbegin + offset
    if r.wbegin ≤ target ∧ target ≤ r.wend then
      match r.src.seek (.start target) with
      | (.ok np, src') => (.ok ({ r with src := src', current := np } : LimitedSeekReader).rel_pos,
          { r with src := src', current := np })
      | (.error e, src') => (.error e, { r with src := src' })
    else (.error .assertionFailed, r)
  | .current val =>
    let offset : Int := if val < 0 then max (-(r.rel_pos : Int)) val else min (r.rest_len : Int) val
    let target : Int := (r.current : Int) + offset
    if (r.wbegin : Int) ≤ target ∧ target ≤ (r.wend : Int) then
      match r.src.seek (.current offset) with
      | (.ok np, src') => (.ok ({ r with src := src', current := np } : LimitedSeekReader).rel_pos,
          { r with src := src', current := np })
      | (.error e, src') => (.error e, { r with src := src' })
    else (.error .assertionFailed, r)
  | .fromEnd val =>
    let offset : Int := max (-(r.len : Int)) (min 0 val)
    let target : Nat := ((r.wend : Int) + offset).toNat
    if r.wbegin ≤ target ∧ target ≤ r.wend then
      match r.src.seek (.start target) with
      | (.ok np, src') => (.ok ({ r with src := src', current := np } : LimitedSeekReader).rel_pos,
          { r with src := src', current := np })
      | (.error e, src') => (.error e, { r with src := src' })
    else (.error .assertionFailed, r)

/-- Whether a byte is a UTF-8 continuation byte (0x80-0xBF). -/
def utf8Cont (b : Byte) : Bool := 0x80 ≤ b && b ≤ 0xBF

/-- UTF-8 validity of a byte sequence, as checked by String::from_utf8
(an external collaborator of the parser; RFC 3629 table). -/
def validUtf8 : List Byte → Bool
  | [] => true
  | b :: rest =>
    if b ≤ 0x7F then validUtf8 rest
    else if 0xC2 ≤ b && b ≤ 0xDF then
      match rest with
      | c1 :: rest' => utf8Cont c1 && validUtf8 rest'
      | [] => false
    else if b = 0xE0 then
      match rest with
      | c1 :: c2 :: rest' => (0xA0 ≤ c1 && c1 ≤ 0xBF) && utf8Cont c2 && validUtf8 rest'
      | _ => false
    else if (0xE1 ≤ b && b ≤ 0xEC) || b = 0xEE || b = 0xEF then
      match rest with
      | c1 :: c2 :: rest' => utf8Cont c1 && utf8Cont c2 && validUtf8 rest'
      | _ => false
    else if b = 0xED then
      match rest with
      | c1 :: c2 :: rest' => (0x80 ≤ c1 && c1 ≤ 0x9F) && utf8Cont c2 && validUtf8 rest'
      | _ => false
    else if b = 0xF0 then
      match rest with
      | c1 :: c2 :: c3 :: rest' =>
        (0x90 ≤ c1 && c1 ≤ 0xBF) && utf8Cont c2 && utf8Cont c3 && validUtf8 rest'
      | _ => false
    else if 0xF1 ≤ b && b ≤ 0xF3 then
      match rest with
      | c1 :: c2 :: c3 :: rest' => utf8Cont c1 && utf8Cont c2 && utf8Cont c3 && validUtf8 rest'
      | _ => false
    else if b = 0xF4 then
      match rest with
      | c1 :: c2 :: c3 :: rest' =>
        (0x80 ≤ c1 && c1 ≤ 0x8F) && utf8Cont c2 && utf8Cont c3 && validUtf8 rest'
      | _ => false
    else false

deriving instance DecidableEq for Except

/-- Parser state without error (mod.rs, enum State). -/
inductive PState where
  | header
  | nodeStarted
  | nodeEnded
deriving Repr, DecidableEq

/-- Information about an opened, not yet closed node (mod.rs, struct
OpenNode): start offset of the attributes, end offset of the node, end
offset of the attribute region. -/
structure OpenNode where
  nbegin : Nat
  nend : Nat
  attributes_end : Nat
deriving Repr, DecidableEq

/-- FBX footer (event/mod.rs, struct FbxFooter). -/
structure FbxFooter where
  unknown1 : List Byte
  version : Nat
  unknown2 : List Byte
deriving Repr, DecidableEq

/-- Fixed-size node header (event/mod.rs, struct NodeHeader). -/
structure NodeHeader where
  end_offset : Nat
  num_attributes : Nat
  bytelen_attributes : Nat
  bytelen_name : Nat
deriving Repr, DecidableEq

/-- NodeHeader::is_node_end: all four fields are 0. -/
def NodeHeader.is_node_end (h : NodeHeader) : Bool :=
  h.end_offset = 0 && h.num_attributes = 0 && h.bytelen_attributes = 0 && h.bytelen_name = 0

/-- NodeHeader::read_from_parser: three u32 length fields for FBX
version below 7500, three u64 fields otherwise, then the u8 name
length.  Only the source and the remembered version are used, so the
function is stated over them. -/
def NodeHeader.read (fbx_version : Nat) (s : Source) : Except Err NodeHeader × Source :=
  if fbx_version < 7500 then
    match s.read_u32 with
    | (.error e, s1) => (.error e, s1)
    | (.ok eo, s1) =>
      match s1.read_u32 with
      | (.error e, s2) => (.error e, s2)
      | (.ok na, s2) =>
        match s2.read_u32 with
        | (.error e, s3) => (.error e, s3)
        | (.ok bla, s3) =>
          match s3.read_u8 with
          | (.error e, s4) => (.error e, s4)
          | (.ok bln, s4) => (.ok ⟨eo, na, bla, bln⟩, s4)
  else
    match s.read_u64 with
    | (.error e, s1) => (.error e, s1)
    | (.ok eo, s1) =>
      match s1.read_u64 with
      | (.error e, s2) => (.error e, s2)
      | (.ok na, s2) =>
        match s2.read_u64 with
        | (.error e, s3) => (.error e, s3)
        | (.ok bla, s3) =>
          match s3.read_u8 with
          | (.error e, s4) => (.error e, s4)
          | (.ok bln, s4) => (.ok ⟨eo, na, bla, bln⟩, s4)

/-- Parser event, at the EventBuilder level of event/mod.rs (the
builder is what next_event computes before borrowing readers into it;
a StartNode carries its node header, the node name is left in
recent_node_name of the parser). -/
inductive EventB where
  | startFbx (version : Nat)
  | endFbx (footer : Except Err FbxFooter)
  | startNode (header : NodeHeader)
  | endNode
deriving Repr, DecidableEq

/-- Pull parser for a whole FBX binary (mod.rs, struct RootParser).
The open_nodes stack is kept head-first: the head of the list is the
most recently opened node (the last element of the Rust Vec). -/
structure RootParser where
  source : Source
  state : Except Err PState
  warnings : List Warning
  fbx_version : Option Nat
  open_nodes : List OpenNode
  recent_node_name : Option (List Byte)
deriving Repr, DecidableEq

/-- RootParser::new on a byte stream. -/
def RootParser.new (data : List Byte) : RootParser :=
  { source := ⟨data, 0⟩
    state := .ok .header
    warnings := []
    fbx_version := none
    open_nodes := []
    recent_node_name := none }

/-- RootParser::num_open_nodes. -/
def RootParser.num_open_nodes (p : RootParser) : Nat := p.open_nodes.length

/-- Warnings::warn (mod.rs lines 31-35): push the warning; the log
output is not modelled.  RootParser::warn delegates here. -/
def RootParser.warn (p : RootParser) (w : Warning) : RootParser :=
  { p with warnings := p.warnings ++ [w] }

/-- RootParser::set_error: latch the error into the parser state. -/
def RootParser.set_error (p : RootParser) (e : Err) : RootParser :=
  { p with state := .error e }

/-- RootParser::set_finish: latch the Finished sentinel. -/
def RootParser.set_finish (p : RootParser) : RootParser :=
  { p with state := .error .finished }

/-- The magic bytes "Kaydara FBX Binary  " followed by a NUL. -/
def fbxMagic : List Byte :=
  [75, 97, 121, 100, 97, 114, 97, 32, 70, 66, 88, 32, 66, 105, 110, 97, 114, 121, 32, 32, 0]

/-- read_fbx_header (event/mod.rs lines 56-87) composed with the state
update of RootParser::read_fbx_header (mod.rs lines 205-210): check the
21 magic bytes, read and merely warn about the two bytes after the
magic, read the u32 version, remember it and move to NodeEnded. -/
def RootParser.read_fbx_header (p : RootParser) : Except Err EventB × RootParser :=
  match p.fbx_version with
  | some _ => (.error .assertionFailed, p)
  | none =>
    match p.source.read_exact 21 with
    | (.error e, s1) => (.error e, { p with source := s1 })
    | (.ok magic, s1) =>
      if magic ≠ fbxMagic then
        (.error (.magicNotDetected magic), { p with source := s1 })
      else
        match s1.read_exact 2 with
        | (.error e, s2) => (.error e, { p with source := s2 })
        | (.ok unknown2, s2) =>
          let p2 : RootParser :=
            if unknown2 ≠ [0x1a, 0x00] then
              ({ p with source := s2 } : RootParser).warn (.unexpectedBytesAfterMagic unknown2)
            else { p with source := s2 }
          match p2.source.read_u32 with
          | (.error e, s3) => (.error e, { p2 with source := s3 })
          | (.ok version, s3) =>
            (.ok (.startFbx version),
              { p2 with source := s3, fbx_version := some version, state := .ok .nodeEnded })

/-- One backwards-scan loop of FbxFooter::read_from_parser (event/mod.rs
lines 125-137): starting from the last byte of the 144-byte buffer,
count the bytes that are not zero, stopping as soon as a zero byte is
seen or the count has passed 16.  The while loop runs at most 17 times
(the count check stops it), so a structural fuel of 18 makes the
recursion structural without changing the computed value. -/
def footerScanAux (buf : List Byte) : Nat → Nat → Nat
  | 0, count => count
  | fuel + 1, count =>
    if buf.getD (143 - count) 0 ≠ 0 ∧ count ≤ 16 then footerScanAux buf fuel (count + 1)
    else count

/-- The backwards scan, started at count 0. -/
def footerScan (buf : List Byte) (count : Nat) : Nat :=
  footerScanAux buf 18 count

/-- FbxFooter::read_from_parser (event/mod.rs lines 101-182): read the
16 unknown bytes, read a 144-byte block that holds padding, 4 zero
bytes, the footer version, 120 zero bytes and possibly a prefix of the
trailing 16 unknown bytes, recover the boundary by scanning backwards
for the last zero, read the rest of the trailing bytes, warn when the
padding length is unexpected, and compare the footer version with the
header version. -/
def FbxFooter.read (p : RootParser) : Except Err FbxFooter × RootParser :=
  match p.source.read_exact 16 with
  | (.error e, s1) => (.error e, { p with source := s1 })
  | (.ok unknown1, s1) =>
    let expected_padding_len := (16 - (s1.position % 16)) % 16
    match s1.read_exact 144 with
    | (.error e, s2) => (.error e, { p with source := s2 })
    | (.ok buf, s2) =>
      let cnt := footerScan buf 0
      if 16 < cnt then
        (.error .brokenFbxFooter, { p with source := s2 })
      else
        let footer2_seen := cnt
        let unknown2a := buf.drop (144 - footer2_seen)
        match s2.read_exact (16 - footer2_seen) with
        | (.error e, s3) => (.error e, { p with source := s3 })
        | (.ok unknown2b, s3) =>
          let p3 : RootParser :=
            if 16 - footer2_seen = expected_padding_len then { p with source := s3 }
            else
              ({ p with source := s3 } : RootParser).warn
                (.invalidPaddingInFbxFooter expected_padding_len (16 - footer2_seen))
          let ver_offset := 20 - footer2_seen
          let footer_fbx_version := leNat ((buf.drop ver_offset).take 4)
          match p3.fbx_version with
          | none => (.error .assertionFailed, p3)
          | some header_fbx_version =>
            if header_fbx_version ≠ footer_fbx_version then
              (.error (.headerFooterVersionMismatch header_fbx_version footer_fbx_version), p3)
            else
              (.ok ⟨unknown1, footer_fbx_version, unknown2a ++ unknown2b⟩, p3)

/-- RootParser::read_fbx_footer: set the Finished sentinel, then read
the footer. -/
def RootParser.read_fbx_footer (p : RootParser) : Except Err FbxFooter × RootParser :=
  FbxFooter.read p.set_finish

/-- RootParser::read_node_event (mod.rs lines 241-305): read a node
header; a null header pops the top open node and validates the end
offset, or - with no open node - reads the footer; a non-null header
reads and validates the node name, pushes an open-node record and
emits StartNode. -/
def RootParser.read_node_event (p : RootParser) : Except Err EventB × RootParser :=
  match p.fbx_version with
  | none => (.error .assertionFailed, p)
  | some v =>
    match NodeHeader.read v p.source with
    | (.error e, s1) => (.error e, { p with source := s1 })
    | (.ok header, s1) =>
      if header.is_node_end then
        match p.open_nodes with
        | last_node :: rest =>
          -- Vec::pop happens before the end-offset check.
          let p2 : RootParser := { p with source := s1, open_nodes := rest }
          let current_pos := p2.source.position
          if current_pos ≠ last_node.nend then
            (.error (.wrongNodeEndOffset last_node.nbegin last_node.nend current_pos), p2)
          else
            (.ok .endNode, { p2 with state := .ok .nodeEnded })
        | [] =>
          match p.state with
          | .ok .nodeEnded =>
            let p2 : RootParser := ({ p with source := s1 } : RootParser).set_finish
            match FbxFooter.read p2 with
            | (footer, p3) => (.ok (.endFbx footer), p3)
          | _ => (.error .assertionFailed, { p with source := s1 })
      else
        -- recent_node_name is taken before the name is read; on any
        -- failure below it stays None.
        let p1 : RootParser := { p with source := s1, recent_node_name := none }
        match p1.source.read_exact header.bytelen_name with
        | (.error e, s2) => (.error e, { p1 with source := s2 })
        | (.ok nameBytes, s2) =>
          if validUtf8 nameBytes then
            let current_pos := s2.position
            (.ok (.startNode header),
              { p1 with
                  source := s2
                  recent_node_name := some nameBytes
                  open_nodes :=
                    ⟨current_pos, header.end_offset, current_pos + header.bytelen_attributes⟩
                      :: p1.open_nodes
                  state := .ok .nodeStarted })
          else
            (.error .nodeNameInvalidUtf8, { p1 with source := s2 })

/-- RootParser::skip_attributes (mod.rs lines 313-320): forward-skip to
the attribute end of the most recently opened node; calling it with no
open node is a Rust panic (expect). -/
def RootParser.skip_attributes (p : RootParser) : Except Err Unit × RootParser :=
  match p.open_nodes with
  | [] => (.error .assertionFailed, p)
  | top :: _ =>
    match p.source.skip_to top.attributes_end with
    | (.error e, s1) => (.error e, { p with source := s1 })
    | (.ok _, s1) => (.ok (), { p with source := s1 })

/-- RootParser::read_after_node_start (mod.rs lines 213-230): skip any
unread attributes, then either synthesise an EndNode when the position
already equals the end offset of the most recent open node, or read the
next node event. -/
def RootParser.read_after_node_start (p : RootParser) : Except Err EventB × RootParser :=
  match p.skip_attributes with
  | (.error e, p1) => (.error e, p1)
  | (.ok _, p1) =>
    match p1.open_nodes with
    | top :: rest =>
      if p1.source.position = top.nend then
        (.ok .endNode, { p1 with state := .ok .nodeEnded, open_nodes := rest })
      else
        p1.read_node_event
    | [] => p1.read_node_event

/-- RootParser::read_after_node_end delegates to read_node_event. -/
def RootParser.read_after_node_end (p : RootParser) : Except Err EventB × RootParser :=
  p.read_node_event

/-- Parser::next_event for RootParser (mod.rs lines 328-338): propagate
a latched error unchanged, otherwise dispatch on the state and latch
any error produced by the dispatched reader. -/
def RootParser.next_event (p : RootParser) : Except Err EventB × RootParser :=
  match p.state with
  | .error e => (.error e, p)
  | .ok st =>
    let r : Except Err EventB × RootParser :=
      match st with
      | .header => p.read_fbx_header
      | .nodeStarted => p.read_after_node_start
      | .nodeEnded => p.read_after_node_end
    match r with
    | (.error e, p') => (.error e, p'.set_error e)
    | (.ok ev, p') => (.ok ev, p')

/-- Parser::skip_current_node for RootParser (mod.rs lines 340-348):
pop the top open node if any, forward-skip to its end offset and move
to NodeEnded; report whether a node was popped. -/
def RootParser.skip_current_node (p : RootParser) : Except Err Bool × RootParser :=
  match p.open_nodes with
  | [] => (.ok false, p)
  | top :: rest =>
    let p1 : RootParser := { p with open_nodes := rest }
    match p1.source.skip_to top.nend with
    | (.error e, s1) => (.error e, { p1 with source := s1 })
    | (.ok _, s1) => (.ok true, { p1 with source := s1, state := .ok .nodeEnded })

/-- SubtreeParser::is_finished (mod.rs lines 390-395), for a subtree
parser created when the root had depth d: propagate a latched root
error, else report whether the depth has dropped below d. -/
def SubtreeParser.is_finished (d : Nat) (p : RootParser) : Except Err Bool :=
  match p.state with
  | .error e => .error e
  | .ok _ => .ok (p.num_open_nodes < d)

/-- SubtreeParser::ensure_not_finished (mod.rs lines 381-387). -/
def SubtreeParser.ensure_not_finished (d : Nat) (p : RootParser) : Except Err Unit :=
  match SubtreeParser.is_finished d p with
  | .error e => .error e
  | .ok true => .error .finished
  | .ok false => .ok ()

/-- Parser::next_event for SubtreeParser (mod.rs lines 423-426). -/
def SubtreeParser.next_event (d : Nat) (p : RootParser) : Except Err EventB × RootParser :=
  match SubtreeParser.ensure_not_finished d p with
  | .error e => (.error e, p)
  | .ok _ => p.next_event

/-- Parser::skip_current_node for SubtreeParser (mod.rs lines 428-431). -/
def SubtreeParser.skip_current_node (d : Nat) (p : RootParser) : Except Err Bool × RootParser :=
  match SubtreeParser.ensure_not_finished d p with
  | .error e => (.error e, p)
  | .ok _ => p.skip_current_node

/-! Helper lemmas about the source operations. -/

theorem read_exact_pos_le (s : Source) (n : Nat) : s.pos ≤ (s.read_exact n).2.pos := by
  unfold Source.read_exact
  split <;> simp

theorem read_exact_data_eq (s : Source) (n : Nat) : (s.read_exact n).2.data = s.data := by
  unfold Source.read_exact
  split <;> simp

theorem skipChunkLoop_ok (k : Nat) (tail : Nat) (s : Source)
    (h : s.pos + (256 * k + tail) ≤ s.data.length) :
    s.skipChunkLoop k tail = (.ok (), { s with pos := s.pos + (256 * k + tail) }) := by
  induction k generalizing s with
  | zero =>
    unfold Source.skipChunkLoop Source.read_exact
    rw [if_pos (by omega)]
    simp
  | succ k' ih =>
    unfold Source.skipChunkLoop
    have hr : s.read_exact 256 =
        (.ok ((s.data.drop s.pos).take 256), { s with pos := s.pos + 256 }) := by
      unfold Source.read_exact
      rw [if_pos (by omega)]
    rw [hr]
    have h2 := ih ({ s with pos := s.pos + 256 }) (by simp; omega)
    simp only [h2]
    have h3 : s.pos + 256 + (256 * k' + tail) = s.pos + (256 * (k' + 1) + tail) := by ring_nf
    simp [h3]

theorem skipChunkLoop_pos_le (k : Nat) (tail : Nat) (s : Source) :
    s.pos ≤ (s.skipChunkLoop k tail).2.pos := by
  induction k generalizing s with
  | zero =>
    unfold Source.skipChunkLoop
    rcases hr : s.read_exact tail with ⟨res, s'⟩
    have h1 : s.pos ≤ s'.pos := by
      have := read_exact_pos_le s tail
      rw [hr] at this
      exact this
    cases res <;> simpa using h1
  | succ k' ih =>
    unfold Source.skipChunkLoop
    rcases hr : s.read_exact 256 with ⟨res, s'⟩
    have h1 : s.pos ≤ s'.pos := by
      have := read_exact_pos_le s 256
      rw [hr] at this
      exact this
    cases res with
    | ok _ =>
      simp only
      exact le_trans h1 (ih s')
    | error _ => simpa using h1

theorem skip_chunk_split (rest : Nat) :
    256 * ((rest - 1) / 256) + (rest - 256 * ((rest - 1) / 256)) = rest := by
  have hk := Nat.div_mul_le_self (rest - 1) 256
  omega

theorem skip_to_ok (s : Source) (d : Nat) (h1 : s.pos ≤ d) (h2 : d ≤ s.data.length) :
    s.skip_to d = (.ok (), { s with pos := d }) := by
  unfold Source.skip_to
  rw [if_neg (by omega)]
  rw [skipChunkLoop_ok _ _ _ (by rw [skip_chunk_split]; omega)]
  rw [skip_chunk_split]
  congr 2
  omega

theorem skip_to_pos_le (s : Source) (d : Nat) : s.pos ≤ (s.skip_to d).2.pos := by
  unfold Source.skip_to
  split
  · simp
  · exact skipChunkLoop_pos_le _ _ s

/-! Helper lemmas characterising which parser steps can emit EndNode. -/

theorem read_node_event_endNode (p p' : RootParser)
    (h : p.read_node_event = (.ok .endNode, p')) :
    ∃ n rest, p.open_nodes = n :: rest ∧ p'.open_nodes = rest ∧ p'.source.position = n.nend := by
  unfold RootParser.read_node_event at h
  dsimp only at h
  repeat' split at h
  all_goals simp_all
  rename_i hpos
  subst h
  exact ⟨_, _, ⟨rfl, rfl⟩, rfl, hpos⟩

theorem skip_attributes_ok (p p1 : RootParser) (u : Unit)
    (h : p.skip_attributes = (.ok u, p1)) :
    p1.open_nodes = p.open_nodes := by
  unfold RootParser.skip_attributes at h
  repeat' split at h
  all_goals simp_all
  subst h
  rfl

theorem read_after_node_start_endNode (p p' : RootParser)
    (h : p.read_after_node_start = (.ok .endNode, p')) :
    ∃ n rest, p.open_nodes = n :: rest ∧ p'.open_nodes = rest ∧ p'.source.position = n.nend := by
  unfold RootParser.read_after_node_start at h
  repeat' split at h
  all_goals try simp_all
  · rename_i xx aa p1 hskip xs ln rest hopen hpos
    have hstack := skip_attributes_ok p p1 aa hskip
    subst h
    exact ⟨ln, rest, by rw [← hstack, hopen], rfl, hpos⟩
  · rename_i xx aa p1 hskip xs ln rest hopen hpos
    have hstack := skip_attributes_ok p p1 aa hskip
    obtain ⟨n, r2, h1, h2, h3⟩ := read_node_event_endNode p1 p' h
    exact ⟨n, r2, by rw [← hstack, h1], h2, h3⟩
  · rename_i xx aa p1 hskip xs hopen
    obtain ⟨n, r2, h1, h2, h3⟩ := read_node_event_endNode p1 p' h
    rw [hopen] at h1
    cases h1

theorem read_fbx_header_not_endNode (p p' : RootParser)
    (h : p.read_fbx_header = (.ok .endNode, p')) : False := by
  unfold RootParser.read_fbx_header RootParser.warn at h
  repeat' split at h
  all_goals try simp_all
  all_goals (split at h <;> simp_all)

theorem next_event_endNode (p p' : RootParser)
    (h : p.next_event = (.ok .endNode, p')) :
    ∃ n rest, p.open_nodes = n :: rest ∧ p'.open_nodes = rest ∧ p'.source.position = n.nend := by
  unfold RootParser.next_event at h
  repeat' split at h
  all_goals simp_all
  · rcases hin : p.read_fbx_header with ⟨r, q⟩
    rw [hin] at h
    cases r <;> simp_all
    exact (read_fbx_header_not_endNode p p' hin).elim
  · rcases hin : p.read_after_node_start with ⟨r, q⟩
    rw [hin] at h
    cases r <;> simp_all
    exact read_after_node_start_endNode p p' hin
  · rcases hin : p.read_after_node_end with ⟨r, q⟩
    rw [hin] at h
    cases r <;> simp_all
    unfold RootParser.read_after_node_end at hin
    exact read_node_event_endNode p p' hin

/-- Byte stream of a well-formed prefix: FBX header for version 7400,
one node named A with end offset 54 and no attributes, then its null
terminator at offset 41, reaching exactly position 54. -/
def streamC1 : List Byte :=
  fbxMagic ++ [0x1a, 0] ++ [232, 28, 0, 0]
    ++ [54, 0, 0, 0] ++ [0, 0, 0, 0] ++ [0, 0, 0, 0] ++ [1] ++ [65]
    ++ List.replicate 13 0

/-- The parser state of streamC1 after StartFbx and StartNode. -/
def c1p : RootParser := ((RootParser.new streamC1).next_event.2.next_event.2)

/-- Claim C1: when a null node header is read while the open-node stack
is non-empty, read_node_event pops the topmost open node; if the
position differs from the stored end offset of the popped node it fails
with the wrong-end-offset error, and if they agree it emits EndNode.
Consequently, whenever next_event emits EndNode the position equals the
stored end offset of the node being closed. -/
theorem claim_c1_end_offset_exact :
    (∀ (p : RootParser) (v : Nat) (h : NodeHeader) (s1 : Source) (n : OpenNode)
        (rest : List OpenNode),
      p.fbx_version = some v →
      NodeHeader.read v p.source = (.ok h, s1) →
      h.is_node_end = true →
      p.open_nodes = n :: rest →
      p.read_node_event =
        if s1.position ≠ n.nend then
          (.error (.wrongNodeEndOffset n.nbegin n.nend s1.position),
            { p with source := s1, open_nodes := rest })
        else
          (.ok .endNode, { p with source := s1, open_nodes := rest, state := .ok .nodeEnded })) ∧
    (∀ p p' : RootParser, p.next_event = (.ok .endNode, p') →
      ∃ n rest, p.open_nodes = n :: rest ∧ p'.open_nodes = rest ∧
        p'.source.position = n.nend) := by
  constructor
  · intro p v h s1 n rest hv hread hnull hopen
    unfold RootParser.read_node_event
    simp only [hv, hread, hnull, hopen]
    split <;> simp_all
  · exact next_event_endNode

/-- The source of streamC1 positioned just after the null header. -/
def c1s1 : Source := ⟨streamC1, 54⟩

/-! Warnings bookkeeping: every parser step only ever appends to the
warnings list. -/

theorem warnings_ext_footer (p : RootParser) :
    ∃ t, (FbxFooter.read p).2.warnings = p.warnings ++ t := by
  unfold FbxFooter.read RootParser.warn
  dsimp only
  repeat' split
  all_goals first
    | exact ⟨_, rfl⟩
    | (refine ⟨[], ?_⟩; simp; done)
    | (refine ⟨_, ?_⟩; simp; done)

theorem warnings_ext_read_fbx_header (p : RootParser) :
    ∃ t, (p.read_fbx_header).2.warnings = p.warnings ++ t := by
  unfold RootParser.read_fbx_header RootParser.warn
  dsimp only
  repeat' split
  all_goals first
    | exact ⟨_, rfl⟩
    | (refine ⟨[], ?_⟩; simp; done)
    | (refine ⟨_, ?_⟩; simp; done)

theorem warnings_ext_read_node_event (p : RootParser) :
    ∃ t, (p.read_node_event).2.warnings = p.warnings ++ t := by
  unfold RootParser.read_node_event
  dsimp only
  repeat' split
  all_goals first
    | exact ⟨_, rfl⟩
    | exact warnings_ext_footer _
    | (refine ⟨[], ?_⟩; simp; done)
    | (refine ⟨_, ?_⟩; simp; done)

theorem warnings_ext_skip_attributes (p : RootParser) :
    (p.skip_attributes).2.warnings = p.warnings := by
  unfold RootParser.skip_attributes
  repeat' split
  all_goals simp

theorem warnings_ext_read_after_node_start (p : RootParser) :
    ∃ t, (p.read_after_node_start).2.warnings = p.warnings ++ t := by
  unfold RootParser.read_after_node_start
  rcases hs : p.skip_attributes with ⟨r, p1⟩
  have hw : p1.warnings = p.warnings := by
    have := warnings_ext_skip_attributes p
    rw [hs] at this
    exact this
  cases r with
  | error e => exact ⟨[], by simp [hw]⟩
  | ok u =>
    dsimp only
    rcases hn : p1.open_nodes with _ | ⟨top, rest⟩
    · obtain ⟨t, ht⟩ := warnings_ext_read_node_event p1
      exact ⟨t, by rw [ht, hw]⟩
    · dsimp only
      by_cases hp : p1.source.position = top.nend
      · rw [if_pos hp]
        exact ⟨[], by simp [hw]⟩
      · rw [if_neg hp]
        obtain ⟨t, ht⟩ := warnings_ext_read_node_event p1
        exact ⟨t, by rw [ht, hw]⟩

theorem warnings_ext_next_event (p : RootParser) :
    ∃ t, (p.next_event).2.warnings = p.warnings ++ t := by
  unfold RootParser.next_event
  rcases hst : p.state with e | st
  · exact ⟨[], by simp⟩
  · cases st
    · rcases hr : p.read_fbx_header with ⟨r, q⟩
      have hq : ∃ t, q.warnings = p.warnings ++ t := by
        have := warnings_ext_read_fbx_header p
        rw [hr] at this
        exact this
      dsimp only
      obtain ⟨t, ht⟩ := hq
      cases r <;> exact ⟨t, by simp [RootParser.set_error, ht]⟩
    · rcases hr : p.read_after_node_start with ⟨r, q⟩
      have hq : ∃ t, q.warnings = p.warnings ++ t := by
        have := warnings_ext_read_after_node_start p
        rw [hr] at this
        exact this
      dsimp only
      obtain ⟨t, ht⟩ := hq
      cases r <;> exact ⟨t, by simp [RootParser.set_error, ht]⟩
    · rcases hr : p.read_after_node_end with ⟨r, q⟩
      have hq : ∃ t, q.warnings = p.warnings ++ t := by
        have h2 := warnings_ext_read_node_event p
        unfold RootParser.read_after_node_end at hr
        rw [hr] at h2
        exact h2
      dsimp only
      obtain ⟨t, ht⟩ := hq
      cases r <;> exact ⟨t, by simp [RootParser.set_error, ht]⟩

/-- Byte stream with a node A that carries one boolean attribute and
ends without a null terminator at offset 43, equal to the end of its
attribute region. -/
def streamC2 : List Byte :=
  fbxMagic ++ [0x1a, 0] ++ [232, 28, 0, 0]
    ++ [43, 0, 0, 0] ++ [1, 0, 0, 0] ++ [2, 0, 0, 0] ++ [1] ++ [65]
    ++ [67, 84]

/-- The parser state of streamC2 after StartFbx and StartNode: one open
node, one unread attribute. -/
def c2p : RootParser := ((RootParser.new streamC2).next_event.2.next_event.2)

/-- Claim C2: a next_event call in the NodeStarted state first
forward-skips to the attribute end of the current node (so unread
attribute bytes are skipped, not an error) and then, if the position
equals the node end offset, pops the node, returns to NodeEnded and
emits a synthesised EndNode without reading any further bytes;
otherwise it goes on to read the next node header. -/
theorem claim_c2_attribute_exhaustion :
    ∀ (p : RootParser) (n : OpenNode) (rest : List OpenNode),
      p.state = .ok .nodeStarted →
      p.open_nodes = n :: rest →
      p.source.pos ≤ n.attributes_end →
      n.attributes_end ≤ p.source.data.length →
      p.next_event =
        (if n.attributes_end = n.nend then
          (.ok .endNode,
            { p with
                source := ⟨p.source.data, n.attributes_end⟩,
                state := .ok .nodeEnded,
                open_nodes := rest })
        else
          match ({ p with
                    source := ⟨p.source.data, n.attributes_end⟩,
                    state := .ok .nodeStarted } : RootParser).read_node_event with
          | (.error e, q) => (.error e, q.set_error e)
          | (.ok ev, q) => (.ok ev, q)) := by
  intro p n rest hstate hopen hle hlen
  unfold RootParser.next_event
  simp only [hstate]
  unfold RootParser.read_after_node_start RootParser.skip_attributes
  simp only [hopen]
  rw [skip_to_ok _ _ hle hlen]
  simp only [Source.position, hstate]
  by_cases hc : n.attributes_end = n.nend
  · simp only [if_pos hc]
  · simp only [if_neg hc]

/-- Witness for claim C2 at the concrete stream streamC2: the call
skips the two unread attribute bytes and synthesises an EndNode. -/
theorem claim_c2_witness :
    c2p.next_event =
      (if (⟨41, 43, 43⟩ : OpenNode).attributes_end = (⟨41, 43, 43⟩ : OpenNode).nend then
        (.ok .endNode,
          { c2p with
              source := ⟨c2p.source.data, 43⟩,
              state := .ok .nodeEnded,
              open_nodes := [] })
      else
        match ({ c2p with
                  source := ⟨c2p.source.data, 43⟩,
                  state := .ok .nodeStarted } : RootParser).read_node_event with
        | (.error e, q) => (.error e, q.set_error e)
        | (.ok ev, q) => (.ok ev, q)) :=
  claim_c2_attribute_exhaustion c2p ⟨41, 43, 43⟩ []
    (by rfl) (by rfl) (by decide) (by decide)

/-- Claim C4: next_event latches a fatal error - a latched error is
returned unchanged on every later call, and any error produced by a
call is stored into the parser state; warnings are only ever appended
(the warnings list grows monotonically), and raising a warning is a
total operation that does not change the control state. -/
theorem claim_c4_error_latch_and_warnings :
    (∀ (p : RootParser) (e : Err), p.state = .error e → p.next_event = (.error e, p)) ∧
    (∀ (p q : RootParser) (st : PState) (e : Err),
      p.state = .ok st → p.next_event = (.error e, q) → q.state = .error e) ∧
    (∀ p : RootParser, ∃ t, (p.next_event).2.warnings = p.warnings ++ t) ∧
    (∀ (p : RootParser) (w : Warning),
      (p.warn w).warnings = p.warnings ++ [w] ∧ (p.warn w).state = p.state) := by
  refine ⟨?_, ?_, warnings_ext_next_event, fun p w => ⟨rfl, rfl⟩⟩
  · intro p e hst
    unfold RootParser.next_event
    simp only [hst]
  · intro p q st e hst hev
    unfold RootParser.next_event at hev
    simp only [hst] at hev
    rcases hr : (match st with
      | PState.header => p.read_fbx_header
      | PState.nodeStarted => p.read_after_node_start
      | PState.nodeEnded => p.read_after_node_end) with ⟨r, q'⟩
    rw [hr] at hev
    cases r with
    | ok ev => simp_all
    | error e2 =>
      simp [RootParser.set_error] at hev
      obtain ⟨h1, h2⟩ := hev
      subst h1
      rw [← h2]

/-- A parser with a latched Finished sentinel, for the witness. -/
def c4p : RootParser :=
  { source := ⟨[], 0⟩
    state := .error .finished
    warnings := []
    fbx_version := some 7400
    open_nodes := []
    recent_node_name := none }

/-- Witness for claim C4: the latched Finished error is propagated
unchanged by next_event on a concrete parser state. -/
theorem claim_c4_witness :
    c4p.state = .error .finished ∧ c4p.next_event = (.error .finished, c4p) :=
  ⟨rfl, claim_c4_error_latch_and_warnings.1 c4p .finished rfl⟩

theorem footer_read_state_eq (p : RootParser) : (FbxFooter.read p).2.state = p.state := by
  unfold FbxFooter.read RootParser.warn
  dsimp only
  repeat' split
  all_goals simp

/-- A complete minimal FBX stream whose header says version 7400 but
whose footer says 7500: header, null terminator of the implicit root,
16 unknown bytes, 8 padding zero bytes, 4 zero bytes, the footer
version, 120 zero bytes and 16 trailing unknown bytes. -/
def streamC7 : List Byte :=
  fbxMagic ++ [0x1a, 0] ++ [232, 28, 0, 0]
    ++ List.replicate 13 0
    ++ List.replicate 16 0xAB
    ++ List.replicate 8 0 ++ List.replicate 4 0 ++ [76, 29, 0, 0] ++ List.replicate 120 0
    ++ List.replicate 16 0xCD

/-- The parser state of streamC7 after StartFbx. -/
def c7p : RootParser := (RootParser.new streamC7).next_event.2

/-- The state handed to the footer reader: past the null header, with
the Finished sentinel already latched. -/
def c7p2 : RootParser := { c7p with source := ⟨streamC7, 40⟩, state := .error .finished }

/-- The parser state after the footer has been read. -/
def c7q : RootParser := (FbxFooter.read c7p2).2

/-- Claim C7: when the footer version differs from the header version,
the final next_event call still succeeds and returns EndFbx carrying
the header/footer version-mismatch error (naming both versions) as the
result value inside the event, with the parser latched on the Finished
sentinel rather than on an error; and on the concrete mismatching
stream the full event sequence StartFbx then EndFbx is produced, so no
earlier event is lost. -/
theorem claim_c7_footer_mismatch :
    (∀ (p q : RootParser) (v a b : Nat) (h : NodeHeader) (s1 : Source),
      p.state = .ok .nodeEnded →
      p.open_nodes = [] →
      p.fbx_version = some v →
      NodeHeader.read v p.source = (.ok h, s1) →
      h.is_node_end = true →
      FbxFooter.read ({ p with source := s1, state := .error .finished }) =
        (.error (.headerFooterVersionMismatch a b), q) →
      p.next_event = (.ok (.endFbx (.error (.headerFooterVersionMismatch a b))), q) ∧
        q.state = .error .finished) ∧
    (RootParser.new streamC7).next_event.1 = .ok (.startFbx 7400) ∧
    ((RootParser.new streamC7).next_event.2.next_event.1 =
      .ok (.endFbx (.error (.headerFooterVersionMismatch 7400 7500)))) := by
  refine ⟨?_, by rfl, by rfl⟩
  intro p q v a b h s1 hstate hopen hv hread hnull hfoot
  have hq : q.state = Except.error Err.finished := by
    have := footer_read_state_eq ({ p with source := s1, state := .error .finished })
    rw [hfoot] at this
    exact this
  refine ⟨?_, hq⟩
  rw [hv, hopen] at hfoot
  unfold RootParser.next_event
  simp only [hstate]
  unfold RootParser.read_after_node_end RootParser.read_node_event
  simp only [hv, hread, hnull, hopen, hstate, RootParser.set_finish, eq_self_iff_true, if_true]
  rw [hfoot]

/-- Witness for claim C7 at the concrete stream streamC7. -/
theorem claim_c7_witness :
    c7p.next_event =
      (.ok (.endFbx (.error (.headerFooterVersionMismatch 7400 7500))), c7q) ∧
      c7q.state = .error .finished :=
  claim_c7_footer_mismatch.1 c7p c7q 7400 7400 7500 ⟨0, 0, 0, 0⟩ ⟨streamC7, 40⟩
    (by rfl) (by rfl) (by rfl) (by rfl) (by rfl) (by rfl)

/-! Open-node stack bookkeeping: a single parser step pops at most one
open node. -/

theorem footer_read_open_eq (p : RootParser) :
    (FbxFooter.read p).2.open_nodes = p.open_nodes := by
  unfold FbxFooter.read RootParser.warn
  dsimp only
  repeat' split
  all_goals simp

theorem read_fbx_header_open_eq (p : RootParser) :
    (p.read_fbx_header).2.open_nodes = p.open_nodes := by
  unfold RootParser.read_fbx_header RootParser.warn
  dsimp only
  repeat' split
  all_goals simp

theorem skip_attributes_open_eq (p : RootParser) :
    (p.skip_attributes).2.open_nodes = p.open_nodes := by
  unfold RootParser.skip_attributes
  repeat' split
  all_goals simp

theorem read_node_event_open_le (p : RootParser) :
    p.open_nodes.length ≤ (p.read_node_event).2.open_nodes.length + 1 := by
  unfold RootParser.read_node_event
  dsimp only
  repeat' split
  all_goals try (simp_all; done)
  all_goals try (simp [footer_read_open_eq]; done)
  all_goals (simp; omega)

theorem read_after_node_start_open_le (p : RootParser) :
    p.open_nodes.length ≤ (p.read_after_node_start).2.open_nodes.length + 1 := by
  unfold RootParser.read_after_node_start
  rcases hs : p.skip_attributes with ⟨r, p1⟩
  have heq : p1.open_nodes = p.open_nodes := by
    have := skip_attributes_open_eq p
    rw [hs] at this
    exact this
  cases r with
  | error e => simp [heq]
  | ok u =>
    dsimp only
    rcases hn : p1.open_nodes with _ | ⟨top, rest⟩
    · have := read_node_event_open_le p1
      rw [hn] at this
      simp_all
    · dsimp only
      by_cases hp : p1.source.position = top.nend
      · rw [if_pos hp]
        rw [hn] at heq
        simp [← heq]
      · rw [if_neg hp]
        have := read_node_event_open_le p1
        rw [hn] at this
        rw [hn] at heq
        rw [← heq]
        exact this

theorem next_event_open_le (p : RootParser) :
    p.open_nodes.length ≤ (p.next_event).2.open_nodes.length + 1 := by
  unfold RootParser.next_event
  rcases hst : p.state with e | st
  · simp
  · cases st
    · rcases hr : p.read_fbx_header with ⟨r, q⟩
      have hq : q.open_nodes = p.open_nodes := by
        have := read_fbx_header_open_eq p
        rw [hr] at this
        exact this
      dsimp only
      cases r <;> simp [RootParser.set_error, hq]
    · rcases hr : p.read_after_node_start with ⟨r, q⟩
      have hq := read_after_node_start_open_le p
      rw [hr] at hq
      dsimp only
      cases r <;> simpa [RootParser.set_error] using hq
    · rcases hr : p.read_after_node_end with ⟨r, q⟩
      have hq := read_node_event_open_le p
      unfold RootParser.read_after_node_end at hr
      rw [hr] at hq
      dsimp only
      cases r <;> simpa [RootParser.set_error] using hq

theorem skip_current_node_open_le (p : RootParser) :
    p.open_nodes.length ≤ (p.skip_current_node).2.open_nodes.length + 1 := by
  unfold RootParser.skip_current_node
  dsimp only
  repeat' split
  all_goals try (simp_all; done)
  all_goals (split <;> simp_all)

/-- Byte stream like streamC1 but with a wrong end offset in the node
header: the node header claims end offset 60 while the null terminator
is reached at position 54. -/
def streamC3 : List Byte :=
  fbxMagic ++ [0x1a, 0] ++ [232, 28, 0, 0]
    ++ [60, 0, 0, 0] ++ [0, 0, 0, 0] ++ [0, 0, 0, 0] ++ [1] ++ [65]
    ++ List.replicate 13 0

/-- The parser state of streamC3 at the moment a SubtreeParser is
created: one open node with a wrong end offset in its header. -/
def c3p2 : RootParser := (RootParser.new streamC3).next_event.2.next_event.2

/-- The root state after the first subtree next_event call: the
wrong-end-offset error is latched and the stack is empty. -/
def c3p3 : RootParser := (SubtreeParser.next_event 1 c3p2).2

/-- Counterexample to claim C3: a subtree parser is created at depth 1;
its first next_event forwards to the root, which pops the open node and
latches a wrong-end-offset error, leaving the open-node count 0, below
the saved depth.  The next subtree next_event call then fails with the
latched wrong-end-offset error and not with the Finished sentinel, so
the claim that the call fails with Finished once the count drops below
the saved depth is false at this input. -/
theorem claim_c3_counterexample :
    c3p2.num_open_nodes = 1 ∧
    SubtreeParser.next_event 1 c3p2 = (.error (.wrongNodeEndOffset 41 60 54), c3p3) ∧
    c3p3.num_open_nodes < 1 ∧
    SubtreeParser.next_event 1 c3p3 = (.error (.wrongNodeEndOffset 41 60 54), c3p3) ∧
    Err.wrongNodeEndOffset 41 60 54 ≠ Err.finished :=
  ⟨rfl, rfl, by decide, rfl, by decide⟩

/-- Claim C3 as amended: a subtree parser call made when the open-node
count is below the saved depth fails without forwarding to the root -
with the Finished sentinel when the root has no latched error and with
the latched error otherwise - and a subtree call never brings the
open-node count below the saved depth minus one. -/
theorem claim_c3_amended :
    (∀ (d : Nat) (p : RootParser) (st : PState), p.state = .ok st → p.num_open_nodes < d →
      SubtreeParser.next_event d p = (.error .finished, p) ∧
      SubtreeParser.skip_current_node d p = (.error .finished, p)) ∧
    (∀ (d : Nat) (p : RootParser) (e : Err), p.state = .error e →
      SubtreeParser.next_event d p = (.error e, p) ∧
      SubtreeParser.skip_current_node d p = (.error e, p)) ∧
    (∀ (d : Nat) (p : RootParser), d - 1 ≤ p.num_open_nodes →
      d - 1 ≤ (SubtreeParser.next_event d p).2.num_open_nodes ∧
      d - 1 ≤ (SubtreeParser.skip_current_node d p).2.num_open_nodes) := by
  refine ⟨?_, ?_, ?_⟩
  · intro d p st hst hlt
    unfold SubtreeParser.next_event SubtreeParser.skip_current_node
      SubtreeParser.ensure_not_finished SubtreeParser.is_finished
    simp only [hst]
    rw [decide_eq_true hlt]
    refine ⟨?_, ?_⟩ <;> first
      | rfl
      | trivial
      | simp
  · intro d p e hst
    unfold SubtreeParser.next_event SubtreeParser.skip_current_node
      SubtreeParser.ensure_not_finished SubtreeParser.is_finished
    simp only [hst]
    refine ⟨?_, ?_⟩ <;> first
      | rfl
      | trivial
      | simp
  · intro d p hd
    unfold SubtreeParser.next_event SubtreeParser.skip_current_node
      SubtreeParser.ensure_not_finished SubtreeParser.is_finished
    rcases hst : p.state with e | st
    · exact ⟨hd, hd⟩
    · dsimp only
      by_cases hlt : p.num_open_nodes < d
      · rw [decide_eq_true hlt]
        exact ⟨hd, hd⟩
      · rw [decide_eq_false hlt]
        dsimp only
        have h1 := next_event_open_le p
        have h2 := skip_current_node_open_le p
        unfold RootParser.num_open_nodes at *
        omega

/-- Witness for the amended claim C3: a fresh parser with no open nodes
and a subtree depth of 1 fails with the Finished sentinel. -/
theorem claim_c3_witness :
    SubtreeParser.next_event 1 (RootParser.new []) = (.error .finished, RootParser.new []) :=
  (claim_c3_amended.1 1 (RootParser.new []) .header rfl (by decide)).1

theorem seek_bounds (r r' : LimitedSeekReader) (sf : SeekFrom) (n : Nat)
    (hb : r.wbegin ≤ r.current) (hc : r.current ≤ r.wend) (hs : r.src.pos = r.current)
    (h : r.seek sf = (.ok n, r')) :
    r.wbegin ≤ r'.src.pos ∧ r'.src.pos ≤ r.wend := by
  cases sf with
  | start v =>
    unfold LimitedSeekReader.seek Source.seek LimitedSeekReader.len at h
    dsimp only at h
    split at h
    · rename_i hg
      simp only [Prod.mk.injEq, Except.ok.injEq] at h
      obtain ⟨hn, hr2⟩ := h
      subst hr2
      exact ⟨Nat.le_add_right _ _, hg.2⟩
    · simp at h
  | current v =>
    unfold LimitedSeekReader.seek Source.seek LimitedSeekReader.rel_pos
      LimitedSeekReader.rest_len at h
    dsimp only at h
    rw [hs] at h
    split at h <;>
      [generalize hX : (-((r.current - r.wbegin : ℕ) : ℤ) ⊔ v) = X at h;
       generalize hX : (((r.wend - r.current : ℕ) : ℤ) ⊓ v) = X at h] <;>
    · split at h
      · rename_i hg
        split at h
        · rename_i xx np src hq
          simp only [Prod.mk.injEq, Except.ok.injEq] at h
          obtain ⟨hn, hr2⟩ := h
          subst hr2
          split at hq
          · simp at hq
          · simp only [Prod.mk.injEq, Except.ok.injEq] at hq
            obtain ⟨h1, h2⟩ := hq
            subst h1
            subst h2
            dsimp only
            omega
        · simp at h
      · simp at h
  | fromEnd v =>
    unfold LimitedSeekReader.seek Source.seek LimitedSeekReader.len at h
    dsimp only at h
    split at h
    · rename_i hg
      simp only [Prod.mk.injEq, Except.ok.injEq] at h
      obtain ⟨hn, hr2⟩ := h
      subst hr2
      exact ⟨hg.1, hg.2⟩
    · simp at h

/-- An attribute sub-reader over a seekable source: a 10-byte window
from offset 100 to 110, 5 bytes already read (position 105). -/
def c5r : LimitedSeekReader := ⟨⟨List.replicate 120 0, 105⟩, 105, 100, 110⟩

/-- Counterexample to claim C5: seeking the attribute sub-reader back
to the start of its window succeeds and moves the tracked position of
the underlying seekable source from 105 back to 100, so the position
reported by the source decreases across this operation sequence. -/
theorem claim_c5_counterexample :
    c5r.src.position = 105 ∧
    (c5r.seek (.start 0)).1 = .ok 0 ∧
    (c5r.seek (.start 0)).2.src.position = 100 ∧
    100 < 105 :=
  ⟨rfl, rfl, rfl, by decide⟩

/-- Claim C5 as amended: the position never decreases across reads and
forward skips; a seek performed through an attribute sub-reader may
move the position backwards, but never outside the window of the
sub-reader (never before its begin offset, never past its end). -/
theorem claim_c5_amended :
    (∀ (s : Source) (n : Nat), s.pos ≤ (s.read_exact n).2.pos) ∧
    (∀ (s : Source) (d : Nat), s.pos ≤ (s.skip_to d).2.pos) ∧
    (∀ (r r' : LimitedSeekReader) (sf : SeekFrom) (n : Nat),
      r.wbegin ≤ r.current → r.current ≤ r.wend → r.src.pos = r.current →
      r.seek sf = (.ok n, r') →
      r.wbegin ≤ r'.src.pos ∧ r'.src.pos ≤ r.wend) :=
  ⟨read_exact_pos_le, skip_to_pos_le,
    fun r r' sf n hb hc hs h => seek_bounds r r' sf n hb hc hs h⟩

/-- Witness for the amended claim C5 at the concrete sub-reader c5r. -/
theorem claim_c5_witness :
    100 ≤ ((c5r.seek (.start 0)).2).src.pos ∧ ((c5r.seek (.start 0)).2).src.pos ≤ 110 :=
  claim_c5_amended.2.2 c5r ((c5r.seek (.start 0)).2) (.start 0) 0
    (by decide) (by decide) rfl (by rfl)

/-!
Layer 2: the loader of src/loader/binary/simple, embedded over the
event-level interface of the Parser trait.  Node attributes arrive
already decoded: the byte-level attribute decoder is the AttributeDecoder
component, and the loaders only see the decoded values.  Floating point
values are carried as their 64-bit (or 32-bit) bit patterns; none of the
embedded loader code computes with them, except the exact f32-to-f64
widening used by the loose conversions.
-/

/-- Decoded primitive attribute (event/attribute/mod.rs,
PrimitiveAttribute); f32 and f64 carry IEEE-754 bit patterns. -/
inductive PrimAttr where
  | boolV (v : Bool)
  | i16V (v : Int)
  | i32V (v : Int)
  | i64V (v : Int)
  | f32V (bits : Nat)
  | f64V (bits : Nat)
deriving Repr, DecidableEq

/-- Exact widening of an IEEE-754 binary32 bit pattern to binary64, the
effect of the Rust expression (v as f64) on an f32: finite values are
preserved exactly, NaN payloads are shifted into the wider mantissa. -/
def f32BitsToF64Bits (b : Nat) : Nat :=
  let sign := b / 2 ^ 31 % 2
  let exp := b / 2 ^ 23 % 2 ^ 8
  let frac := b % 2 ^ 23
  if exp = 255 then
    sign * 2 ^ 63 + 2047 * 2 ^ 52 + frac * 2 ^ 29
  else if exp = 0 then
    if frac = 0 then sign * 2 ^ 63
    else
      let k := Nat.log2 frac
      sign * 2 ^ 63 + (k + 874) * 2 ^ 52 + (frac - 2 ^ k) * 2 ^ (52 - k)
  else
    sign * 2 ^ 63 + (exp + 896) * 2 ^ 52 + frac * 2 ^ 29

/-- PrimitiveAttribute::as_f64: only floating point primitives convert. -/
def PrimAttr.as_f64 : PrimAttr → Option Nat
  | .f32V v => some (f32BitsToF64Bits v)
  | .f64V v => some v
  | _ => none

/-- Decoded array attribute (event/attribute/array.rs, ArrayAttribute),
carrying the decoded element sequence. -/
inductive ArrAttr where
  | boolArr (vs : List Bool)
  | i32Arr (vs : List Int)
  | i64Arr (vs : List Int)
  | f32Arr (vs : List Nat)
  | f64Arr (vs : List Nat)
deriving Repr, DecidableEq

/-- Special attribute type (event/attribute/special.rs). -/
inductive SpecialAttrType where
  | binary
  | string
deriving Repr, DecidableEq

/-- Decoded special attribute: its declared type and raw bytes. -/
structure SpecialAttr where
  value_type : SpecialAttrType
  bytes : List Byte
deriving Repr, DecidableEq

/-- Decoded node attribute (event/attribute/mod.rs, Attribute). -/
inductive Attr where
  | primitive (v : PrimAttr)
  | array (v : ArrAttr)
  | special (v : SpecialAttr)
deriving Repr, DecidableEq

/-- Attribute cursor over the decoded attributes of one node
(event/attribute/mod.rs, Attributes). -/
structure Attrs where
  rest : List Attr
deriving Repr, DecidableEq

/-- Attributes::rest_attributes. -/
def Attrs.rest_attributes (a : Attrs) : Nat := a.rest.length

/-- Attributes::next_attribute at the decoded level: produce the next
attribute if any (byte-level skip bookkeeping does not appear here). -/
def Attrs.next_attribute (a : Attrs) : Option Attr × Attrs :=
  match a.rest with
  | [] => (none, a)
  | x :: t => (some x, ⟨t⟩)

/-! The AttributeValue conversions of utils/attribute_value.rs that the
verified loaders use, one function per impl. -/

/-- impl AttributeValue for (): simply ignore the attribute. -/
def unit_from_attribute_loose (_ : Attr) : Except Err (Option Unit) := .ok (some ())

/-- impl AttributeValue for i32, loose: i16 widens, i32 passes. -/
def i32_from_attribute_loose : Attr → Except Err (Option Int)
  | .primitive (.i16V v) => .ok (some v)
  | .primitive (.i32V v) => .ok (some v)
  | _ => .ok none

/-- impl AttributeValue for i64, loose: i16 and i32 widen, i64 passes. -/
def i64_from_attribute_loose : Attr → Except Err (Option Int)
  | .primitive (.i16V v) => .ok (some v)
  | .primitive (.i32V v) => .ok (some v)
  | .primitive (.i64V v) => .ok (some v)
  | _ => .ok none

/-- impl AttributeValue for f64, strict: only an f64 attribute. -/
def f64_from_attribute : Attr → Except Err (Option Nat)
  | .primitive (.f64V v) => .ok (some v)
  | _ => .ok none

/-- impl AttributeValue for f64, loose: any floating point primitive,
via PrimitiveAttribute::as_f64. -/
def f64_from_attribute_loose : Attr → Except Err (Option Nat)
  | .primitive pv => .ok pv.as_f64
  | _ => .ok none

/-- impl AttributeValue for String (strict = loose): a string-typed
special attribute whose bytes must be valid UTF-8 (into_string performs
an io-failing UTF-8 read). -/
def string_from_attribute : Attr → Except Err (Option (List Byte))
  | .special sv =>
    if sv.value_type = SpecialAttrType.string then
      if validUtf8 sv.bytes then .ok (some sv.bytes) else .error .ioError
    else .ok none
  | _ => .ok none

/-- impl AttributeValue for Vec of u8, loose: any special attribute
yields its raw bytes. -/
def vecu8_from_attribute_loose : Attr → Except Err (Option (List Byte))
  | .special sv => .ok (some sv.bytes)
  | _ => .ok none

/-- impl AttributeValue for Vec of i32 (strict = loose): only an i32
array. -/
def veci32_from_attribute : Attr → Except Err (Option (List Int))
  | .array (.i32Arr vs) => .ok (some vs)
  | _ => .ok none

/-- impl AttributeValue for Vec of f64, loose: an f32 array widens
elementwise, an f64 array passes. -/
def vecf64_from_attribute_loose : Attr → Except Err (Option (List Nat))
  | .array (.f32Arr vs) => .ok (some (vs.map f32BitsToF64Bits))
  | .array (.f64Arr vs) => .ok (some vs)
  | _ => .ok none

/-! The tuple AttributeValues conversions (impl_attribute_values macro):
consume one attribute per component with the loose rule, answering None
as soon as an attribute is missing or incompatible. -/

/-- One component step of the tuple conversion. -/
def convStep (conv : Attr → Except Err (Option α)) (a : Attrs) :
    Except Err (Option α) × Attrs :=
  match a.next_attribute with
  | (none, a') => (.ok none, a')
  | (some attr, a') =>
    match conv attr with
    | .error e => (.error e, a')
    | .ok none => (.ok none, a')
    | .ok (some v) => (.ok (some v), a')

/-- from_attributes for a single value (the one-component tuple). -/
def fromAttrs1 (c1 : Attr → Except Err (Option α)) (a : Attrs) :
    Except Err (Option α) × Attrs :=
  convStep c1 a

/-- from_attributes for a pair. -/
def fromAttrs2 (c1 : Attr → Except Err (Option α)) (c2 : Attr → Except Err (Option β))
    (a : Attrs) : Except Err (Option (α × β)) × Attrs :=
  match convStep c1 a with
  | (.error e, a1) => (.error e, a1)
  | (.ok none, a1) => (.ok none, a1)
  | (.ok (some v1), a1) =>
    match convStep c2 a1 with
    | (.error e, a2) => (.error e, a2)
    | (.ok none, a2) => (.ok none, a2)
    | (.ok (some v2), a2) => (.ok (some (v1, v2)), a2)

/-- from_attributes for a triple. -/
def fromAttrs3 (c1 : Attr → Except Err (Option α)) (c2 : Attr → Except Err (Option β))
    (c3 : Attr → Except Err (Option γ)) (a : Attrs) :
    Except Err (Option (α × β × γ)) × Attrs :=
  match fromAttrs2 c1 c2 a with
  | (.error e, a2) => (.error e, a2)
  | (.ok none, a2) => (.ok none, a2)
  | (.ok (some (v1, v2)), a2) =>
    match convStep c3 a2 with
    | (.error e, a3) => (.error e, a3)
    | (.ok none, a3) => (.ok none, a3)
    | (.ok (some v3), a3) => (.ok (some (v1, v2, v3)), a3)

/-- from_attributes for a four-component tuple. -/
def fromAttrs4 (c1 : Attr → Except Err (Option α)) (c2 : Attr → Except Err (Option β))
    (c3 : Attr → Except Err (Option γ)) (c4 : Attr → Except Err (Option δ)) (a : Attrs) :
    Except Err (Option (α × β × γ × δ)) × Attrs :=
  match fromAttrs3 c1 c2 c3 a with
  | (.error e, a3) => (.error e, a3)
  | (.ok none, a3) => (.ok none, a3)
  | (.ok (some (v1, v2, v3)), a3) =>
    match convStep c4 a3 with
    | (.error e, a4) => (.error e, a4)
    | (.ok none, a4) => (.ok none, a4)
    | (.ok (some v4), a4) => (.ok (some (v1, v2, v3, v4)), a4)

/-- Loader error (loader/binary/simple/error.rs, enum Error).  The
variant inconsistent is modelled from the spec: cluster.rs returns
Error::Inconsistent for cross-field mismatches, but the error.rs copy
under src lacks the variant; spec section 7 lists inconsistent
cross-fields as a schema error carrying a message.  The variants
panicked and fuelOut are artifacts of the embedding: panicked stands
for the unreachable and panic arms of the loader macros, fuelOut is
returned only when the structural fuel of a loop embedding runs out and
never on the runs the theorems speak about. -/
inductive LError where
  | invalidAttribute (name : String)
  | missingNode (parent : String) (child : Option String)
  | parse (e : Err)
  | unexpectedNode (name : String)
  | inconsistent (msg : String)
  | panicked
  | fuelOut
deriving Repr, DecidableEq

/-- Properties70 store (properties70.rs).  The FnvHashMap fields are
modelled as association lists with the most recent insertion first, so
first-match lookup agrees with HashMap insertion-replacement; the
FnvHashSet values_empty is a list likewise.  Keys are attribute strings
(byte lists); f64 values are bit patterns, the multi-component slots
store their components in order as lists. -/
structure Properties70 where
  values_empty : List (List Byte)
  values_i64 : List (List Byte × Int)
  values_f64 : List (List Byte × Nat)
  values_f64_2 : List (List Byte × List Nat)
  values_f64_3 : List (List Byte × List Nat)
  values_f64_4 : List (List Byte × List Nat)
  values_f64_4x4 : List (List Byte × List (List Nat))
  values_string : List (List Byte × List Byte)
  values_binary : List (List Byte × List Byte)
deriving Repr, DecidableEq

/-- Properties70::new (Default::default()). -/
def Properties70.new : Properties70 := ⟨[], [], [], [], [], [], [], [], []⟩

/-- load_property_rest_f64s (properties70.rs lines 194-252): the number
of attributes remaining after the first f64 selects the slot; every
remaining value is read with the loose single-f64 conversion
(convert_into), a None conversion is InvalidAttribute("P"). -/
def load_property_rest_f64s (props : Properties70) (attrs : Attrs)
    (name : List Byte) (first : Nat) : Except LError Properties70 :=
  match attrs.rest_attributes with
  | 0 => .ok { props with values_f64 := (name, first) :: props.values_f64 }
  | 1 =>
    match fromAttrs1 f64_from_attribute_loose attrs with
    | (.error e, _) => .error (.parse e)
    | (.ok none, _) => .error (.invalidAttribute "P")
    | (.ok (some second), _) =>
      .ok { props with values_f64_2 := (name, [first, second]) :: props.values_f64_2 }
  | 2 =>
    match fromAttrs1 f64_from_attribute_loose attrs with
    | (.error e, _) => .error (.parse e)
    | (.ok none, _) => .error (.invalidAttribute "P")
    | (.ok (some second), attrs1) =>
      match fromAttrs1 f64_from_attribute_loose attrs1 with
      | (.error e, _) => .error (.parse e)
      | (.ok none, _) => .error (.invalidAttribute "P")
      | (.ok (some third), _) =>
        .ok { props with values_f64_3 := (name, [first, second, third]) :: props.values_f64_3 }
  | 3 =>
    match fromAttrs1 f64_from_attribute_loose attrs with
    | (.error e, _) => .error (.parse e)
    | (.ok none, _) => .error (.invalidAttribute "P")
    | (.ok (some second), attrs1) =>
      match fromAttrs1 f64_from_attribute_loose attrs1 with
      | (.error e, _) => .error (.parse e)
      | (.ok none, _) => .error (.invalidAttribute "P")
      | (.ok (some third), attrs2) =>
        match fromAttrs1 f64_from_attribute_loose attrs2 with
        | (.error e, _) => .error (.parse e)
        | (.ok none, _) => .error (.invalidAttribute "P")
        | (.ok (some fourth), _) =>
          .ok { props with
                values_f64_4 := (name, [first, second, third, fourth]) :: props.values_f64_4 }
  | 15 =>
    match fromAttrs1 f64_from_attribute_loose attrs with
    | (.error e, _) => .error (.parse e)
    | (.ok none, _) => .error (.invalidAttribute "P")
    | (.ok (some second), attrs1) =>
      match fromAttrs1 f64_from_attribute_loose attrs1 with
      | (.error e, _) => .error (.parse e)
      | (.ok none, _) => .error (.invalidAttribute "P")
      | (.ok (some third), attrs2) =>
        match fromAttrs1 f64_from_attribute_loose attrs2 with
        | (.error e, _) => .error (.parse e)
        | (.ok none, _) => .error (.invalidAttribute "P")
        | (.ok (some fourth), attrs3) =>
          match fromAttrs4 f64_from_attribute_loose f64_from_attribute_loose
              f64_from_attribute_loose f64_from_attribute_loose attrs3 with
          | (.error e, _) => .error (.parse e)
          | (.ok none, _) => .error (.invalidAttribute "P")
          | (.ok (some (a2, b2, c2, d2)), attrs4) =>
            match fromAttrs4 f64_from_attribute_loose f64_from_attribute_loose
                f64_from_attribute_loose f64_from_attribute_loose attrs4 with
            | (.error e, _) => .error (.parse e)
            | (.ok none, _) => .error (.invalidAttribute "P")
            | (.ok (some (a3, b3, c3, d3)), attrs5) =>
              match fromAttrs4 f64_from_attribute_loose f64_from_attribute_loose
                  f64_from_attribute_loose f64_from_attribute_loose attrs5 with
              | (.error e, _) => .error (.parse e)
              | (.ok none, _) => .error (.invalidAttribute "P")
              | (.ok (some (a4, b4, c4, d4)), _) =>
                .ok { props with
                      values_f64_4x4 :=
                        (name, [[first, second, third, fourth],
                                [a2, b2, c2, d2], [a3, b3, c3, d3], [a4, b4, c4, d4]]) ::
                          props.values_f64_4x4 }
  | _ => .error (.invalidAttribute "P")

/-- load_property (properties70.rs lines 121-190): read
(name, type, label, flags) as (String, (), (), ()), then dispatch on the
first value attribute; integers land in values_i64, an f32 widens into
values_f64, an f64 continues with load_property_rest_f64s, a special
string lands in values_string when UTF-8 (values_binary otherwise),
bool and array attributes are InvalidAttribute("P"). -/
def load_property (props : Properties70) (attrs0 : Attrs) : Except LError Properties70 :=
  match fromAttrs4 string_from_attribute unit_from_attribute_loose
      unit_from_attribute_loose unit_from_attribute_loose attrs0 with
  | (.error e, _) => .error (.parse e)
  | (.ok none, _) => .error (.invalidAttribute "P")
  | (.ok (some (name, _, _, _)), attrs) =>
    if attrs.rest_attributes = 0 then
      .ok { props with values_empty := name :: props.values_empty }
    else
      match attrs.next_attribute with
      | (none, _) => .ok { props with values_empty := name :: props.values_empty }
      | (some (.primitive (.i16V v)), _) =>
        .ok { props with values_i64 := (name, v) :: props.values_i64 }
      | (some (.primitive (.i32V v)), _) =>
        .ok { props with values_i64 := (name, v) :: props.values_i64 }
      | (some (.primitive (.i64V v)), _) =>
        .ok { props with values_i64 := (name, v) :: props.values_i64 }
      | (some (.primitive (.f32V v)), _) =>
        .ok { props with values_f64 := (name, f32BitsToF64Bits v) :: props.values_f64 }
      | (some (.primitive (.f64V v)), attrs1) => load_property_rest_f64s props attrs1 name v
      | (some (.special sv), _) =>
        match sv.value_type with
        | .string =>
          if validUtf8 sv.bytes then
            .ok { props with values_string := (name, sv.bytes) :: props.values_string }
          else
            .ok { props with values_binary := (name, sv.bytes) :: props.values_binary }
        | .binary =>
          .ok { props with values_binary := (name, sv.bytes) :: props.values_binary }
      | (some (.primitive (.boolV _)), _) => .error (.invalidAttribute "P")
      | (some (.array _), _) => .error (.invalidAttribute "P")

/-- ArrayAttributeReader over f64 (event/attribute/array.rs): the
num_elements and rest_elements counters plus the not-yet-consumed
decoded elements (f64 bit patterns). -/
structure ArrayAttributeReaderF64 where
  num_elements : Nat
  rest_elements : Nat
  elems : List Nat
deriving Repr, DecidableEq

/-- ArrayAttributeReader::rest_elements (array.rs line 112): the method
body returns self.num_elements, not the rest_elements counter. -/
def ArrayAttributeReaderF64.restElements (a : ArrayAttributeReaderF64) : Nat :=
  a.num_elements

/-- ArrayAttributeReader::read_into_buf for f64 over a buffer of the
given length: reads size = min(buf.len, rest_elements) elements and
decrements rest_elements; yields (size, elements read, updated reader). -/
def ArrayAttributeReaderF64.read_into_buf (a : ArrayAttributeReaderF64) (buf_len : Nat) :
    Nat × List Nat × ArrayAttributeReaderF64 :=
  let size := min buf_len a.rest_elements
  (size, a.elems.take size,
    ⟨a.num_elements, a.rest_elements - size, a.elems.drop size⟩)

/-- array_attr_f64_into_vec3 (utils/attribute_value.rs lines 324-350).
Vec::with_capacity(num_vecs) produces a vector whose length is zero; the
unsafe raw-parts slice over its buffer has length components_buf_len;
the two assert! lines become assertionFailed results.  The Bool in the
result records whether the truncation log line (warn!) fired.  No
set_len call ever runs, so the Ok value is the untouched zero-length
vector. -/
def array_attr_f64_into_vec3 (arr : ArrayAttributeReaderF64) :
    Except Err (List (List Nat)) × Bool :=
  let components_len := arr.restElements
  let remainder := components_len % 3
  let warned := remainder != 0
  let vec : List (List Nat) := []
  let components_buf_len := components_len - remainder
  if components_buf_len ≤ vec.length * 3 then
    let r := arr.read_into_buf components_buf_len
    if r.1 = components_buf_len then (.ok vec, warned)
    else (.error .assertionFailed, warned)
  else (.error .assertionFailed, warned)

/-- The fresh f64 array reader for a decoded element list vs, as
read_array_attribute builds it: both counters start at the element
count. -/
def freshF64Reader (vs : List Nat) : ArrayAttributeReaderF64 :=
  ⟨vs.length, vs.length, vs⟩

/-- Witness for claim C1 at the concrete stream streamC1, where the
node ends exactly at position 54. -/
theorem claim_c1_witness :
    c1p.read_node_event =
      if c1s1.position ≠ (⟨41, 54, 41⟩ : OpenNode).nend then
        (.error (.wrongNodeEndOffset 41 54 54),
          { c1p with source := c1s1, open_nodes := [] })
      else
        (.ok .endNode,
          { c1p with source := c1s1, open_nodes := [], state := .ok .nodeEnded }) :=
  claim_c1_end_offset_exact.1 c1p 7400 ⟨0, 0, 0, 0⟩ c1s1 ⟨41, 54, 41⟩ []
    (by rfl) (by rfl) (by rfl) (by rfl)


/-- Claim C6: in a Properties70 P node whose first value attribute is an
f64, the count of attributes remaining after it selects the stored slot:
0 stores values_f64, 1 stores values_f64_2, 2 stores values_f64_3,
3 stores values_f64_4, 15 stores values_f64_4x4 with the 16 components
in stream order, and every other count fails with InvalidAttribute("P");
and load_property dispatches such a node to load_property_rest_f64s. -/
theorem claim_c6_property_slotting :
    (∀ (props : Properties70) (name : List Byte) (first : Nat),
      load_property_rest_f64s props ⟨[]⟩ name first =
        .ok { props with values_f64 := (name, first) :: props.values_f64 }) ∧
    (∀ (props : Properties70) (name : List Byte) (first a : Nat),
      load_property_rest_f64s props ⟨[.primitive (.f64V a)]⟩ name first =
        .ok { props with values_f64_2 := (name, [first, a]) :: props.values_f64_2 }) ∧
    (∀ (props : Properties70) (name : List Byte) (first a b : Nat),
      load_property_rest_f64s props ⟨[.primitive (.f64V a), .primitive (.f64V b)]⟩ name first =
        .ok { props with values_f64_3 := (name, [first, a, b]) :: props.values_f64_3 }) ∧
    (∀ (props : Properties70) (name : List Byte) (first a b c : Nat),
      load_property_rest_f64s props
          ⟨[.primitive (.f64V a), .primitive (.f64V b), .primitive (.f64V c)]⟩ name first =
        .ok { props with values_f64_4 := (name, [first, a, b, c]) :: props.values_f64_4 }) ∧
    (∀ (props : Properties70) (name : List Byte) (first a b c d e f g h i j k l m n o : Nat),
      load_property_rest_f64s props
          ⟨[a, b, c, d, e, f, g, h, i, j, k, l, m, n, o].map
            (fun x => Attr.primitive (.f64V x))⟩ name first =
        .ok { props with values_f64_4x4 :=
          (name, [[first, a, b, c], [d, e, f, g], [h, i, j, k], [l, m, n, o]]) ::
            props.values_f64_4x4 }) ∧
    (∀ (props : Properties70) (name : List Byte) (first : Nat) (l : List Attr),
      ¬(l.length = 0 ∨ l.length = 1 ∨ l.length = 2 ∨ l.length = 3 ∨ l.length = 15) →
      load_property_rest_f64s props ⟨l⟩ name first = .error (.invalidAttribute "P")) ∧
    (∀ (props : Properties70) (name : List Byte) (a2 a3 a4 : Attr) (v : Nat) (rest : List Attr),
      validUtf8 name = true →
      load_property props ⟨.special ⟨.string, name⟩ :: a2 :: a3 :: a4 ::
          .primitive (.f64V v) :: rest⟩ =
        load_property_rest_f64s props ⟨rest⟩ name v) := by
  refine ⟨fun props name first => rfl, fun props name first a => rfl,
    fun props name first a b => rfl, fun props name first a b c => rfl,
    fun props name first a b c d e f g h i j k l m n o => rfl, ?_, ?_⟩
  · intro props name first l h
    unfold load_property_rest_f64s
    split <;> simp_all [Attrs.rest_attributes]
  · intro props name a2 a3 a4 v rest h
    unfold load_property fromAttrs4 fromAttrs3 fromAttrs2 convStep
    simp [Attrs.next_attribute, string_from_attribute, unit_from_attribute_loose, h,
      Attrs.rest_attributes]

/-- Witness for claim C6: a five-attribute tail fails with
InvalidAttribute("P"), and a concrete P node with name "P" (byte 80) and
first value an f64 dispatches to load_property_rest_f64s. -/
theorem claim_c6_witness :
    load_property_rest_f64s Properties70.new ⟨[.primitive (.boolV true), .primitive (.boolV true),
        .primitive (.boolV true), .primitive (.boolV true), .primitive (.boolV true)]⟩ [80] 7 =
      .error (.invalidAttribute "P") ∧
    load_property Properties70.new ⟨[.special ⟨.string, [80]⟩, .special ⟨.string, []⟩,
        .special ⟨.string, []⟩, .special ⟨.string, []⟩, .primitive (.f64V 7)]⟩ =
      load_property_rest_f64s Properties70.new ⟨[]⟩ [80] 7 :=
  ⟨claim_c6_property_slotting.2.2.2.2.2.1 Properties70.new [80] 7
      [.primitive (.boolV true), .primitive (.boolV true), .primitive (.boolV true),
       .primitive (.boolV true), .primitive (.boolV true)] (by decide),
   claim_c6_property_slotting.2.2.2.2.2.2 Properties70.new [80] (.special ⟨.string, []⟩)
      (.special ⟨.string, []⟩) (.special ⟨.string, []⟩) 7 [] (by decide)⟩

/-- Claim C8: the strict conversion of an f64 array attribute into
Vec of 3-component f64 vectors does NOT behave as claimed.  For every
element count n with 3 ≤ n the function trips its own
assert(components_buf.len <= vec.len * 3), because Vec::with_capacity
leaves vec.len = 0; for n < 3 it returns the empty vector (with the
truncation log for n = 1, 2).  It never yields floor(n/3) vectors for
n ≥ 3. -/
theorem claim_c8_vec3_conversion_bug :
    (∀ vs : List Nat, 3 ≤ vs.length →
      (array_attr_f64_into_vec3 (freshF64Reader vs)).1 = .error .assertionFailed) ∧
    (∀ vs : List Nat, vs.length < 3 →
      array_attr_f64_into_vec3 (freshF64Reader vs) = (.ok [], vs.length != 0)) := by
  constructor
  · intro vs h
    unfold array_attr_f64_into_vec3 freshF64Reader ArrayAttributeReaderF64.restElements
    dsimp only
    rw [if_neg]
    have : vs.length % 3 < 3 := Nat.mod_lt _ (by omega)
    simp only [List.length_nil, Nat.zero_mul]
    omega
  · intro vs h
    unfold array_attr_f64_into_vec3 freshF64Reader ArrayAttributeReaderF64.restElements
      ArrayAttributeReaderF64.read_into_buf
    dsimp only
    have h3 : vs.length % 3 = vs.length := Nat.mod_eq_of_lt h
    rw [h3]
    simp

/-- Witness for claim C8: a three-element f64 array trips the assert, a
two-element one returns the empty vector with the truncation log. -/
theorem claim_c8_witness :
    (array_attr_f64_into_vec3 (freshF64Reader [1, 2, 3])).1 = .error .assertionFailed ∧
    array_attr_f64_into_vec3 (freshF64Reader [1, 2]) = (.ok [], true) :=
  ⟨claim_c8_vec3_conversion_bug.1 [1, 2, 3] (by decide),
   claim_c8_vec3_conversion_bug.2 [1, 2] (by decide)⟩


/-!
The event-level parser interface used by the loaders: the Parser trait
is modelled as a stream of decoded events plus the open-node depth.
-/

/-- Decoded parser event (the Event enum as the loaders observe it): a
StartNode carries its name and decoded attributes, an EndFbx carries
the footer read result. -/
inductive TEvent where
  | startFbx (version : Nat)
  | endFbx (footer : Except Err FbxFooter)
  | startNode (name : String) (attrs : List Attr)
  | endNode
deriving Repr, DecidableEq

/-- Event-level view of a parser: the remaining events and the current
open-node depth (RootParser::num_open_nodes). -/
structure TParser where
  events : List TEvent
  depth : Nat
deriving Repr, DecidableEq

/-- RootParser::next_event at the event level: emit the next event,
tracking the depth; an exhausted stream answers as a finished parser. -/
def TParser.next_event : TParser → Except LError (TEvent × TParser)
  | ⟨[], _⟩ => .error (.parse .finished)
  | ⟨e :: rest, d⟩ =>
    match e with
    | .startNode n a => .ok (.startNode n a, ⟨rest, d + 1⟩)
    | .endNode => .ok (.endNode, ⟨rest, d - 1⟩)
    | e' => .ok (e', ⟨rest, d⟩)

/-- The event consumption performed when the byte-level parser skips to
the end offset of an open node: events are dropped until the depth has
come back down to the target.  Running off the stream (or into the
footer) answers as a finished parser. -/
def dropEvents : List TEvent → Nat → Nat → Except LError (List TEvent)
  | [], _, _ => .error (.parse .finished)
  | e :: rest, cur, target =>
    match e with
    | .startNode _ _ => dropEvents rest (cur + 1) target
    | .endNode => if cur - 1 = target then .ok rest else dropEvents rest (cur - 1) target
    | .startFbx _ => dropEvents rest cur target
    | .endFbx _ => .error (.parse .finished)

/-- RootParser::skip_current_node at the event level: with no open node
it reports false; otherwise it drops the events of the topmost open
node, ending just after its end. -/
def TParser.skip_current_node (p : TParser) : Except LError (Bool × TParser) :=
  match p.depth with
  | 0 => .ok (false, p)
  | d + 1 =>
    match dropEvents p.events (d + 1) d with
    | .error e => .error e
    | .ok rest => .ok (true, ⟨rest, d⟩)

/-- SubtreeParser::next_event for a subtree created at depth d: the
containment check of ensure_not_finished, then the root call. -/
def TParser.sub_next_event (d : Nat) (p : TParser) : Except LError (TEvent × TParser) :=
  if p.depth < d then .error (.parse .finished) else p.next_event

/-- SubtreeParser::skip_current_node for a subtree created at depth d. -/
def TParser.sub_skip_current_node (d : Nat) (p : TParser) :
    Except LError (Bool × TParser) :=
  if p.depth < d then .error (.parse .finished) else p.skip_current_node

/-- SubtreeParser::skip_to_end for a subtree created at depth d:
already-finished subtrees answer Ok; otherwise the open-node stack is
truncated to d and the node at depth d is skipped to its end, leaving
depth d - 1; at d = 0 the pop finds nothing and the parser finishes. -/
def TParser.skip_to_end (d : Nat) (p : TParser) : Except LError TParser :=
  if p.depth < d then .ok p
  else
    match d with
    | 0 => .error (.parse .finished)
    | dd + 1 =>
      match dropEvents p.events p.depth dd with
      | .error e => .error e
      | .ok rest => .ok ⟨rest, dd⟩

/-- The try_get_node_attrs macro (fbx7400/mod.rs lines 20-29): fetch
the next event through the subtree parser; a StartNode applies the
attribute loader, an EndNode ends the caller loop (none here), the
other events hit the panic arm. -/
def tryGetNodeAttrs (d : Nat) (p : TParser)
    (loadAttr : String → Attrs → Except LError α) :
    Except LError (Option α × TParser) :=
  match TParser.sub_next_event d p with
  | .error e => .error e
  | .ok (.startNode name attrs, p1) =>
    match loadAttr name ⟨attrs⟩ with
    | .error e => .error e
    | .ok v => .ok (some v, p1)
  | .ok (.endNode, p1) => .ok (none, p1)
  | .ok (_, _) => .error .panicked

/-- Result::ok() on a footer read result. -/
def exceptOk : Except Err FbxFooter → Option FbxFooter
  | .ok f => some f
  | .error _ => none

/-- The one-value child-attribute conversion of the child_attr_loader
macro: from_attributes, then ok_or_else(InvalidAttribute(name)), then
the variant constructor. -/
def childAttr1 (c1 : Attr → Except Err (Option α)) (name : String) (attrs : Attrs)
    (mk : α → γ) : Except LError γ :=
  match fromAttrs1 c1 attrs with
  | (.error e, _) => .error (.parse e)
  | (.ok none, _) => .error (.invalidAttribute name)
  | (.ok (some a), _) => .ok (mk a)

/-- The two-value child-attribute conversion of the child_attr_loader
macro. -/
def childAttr2 (c1 : Attr → Except Err (Option α)) (c2 : Attr → Except Err (Option β))
    (name : String) (attrs : Attrs) (mk : α → β → γ) : Except LError γ :=
  match fromAttrs2 c1 c2 attrs with
  | (.error e, _) => .error (.parse e)
  | (.ok none, _) => .error (.invalidAttribute name)
  | (.ok (some (a, b)), _) => .ok (mk a b)

/-- Owned node attribute (generic.rs, enum OwnedAttribute); a string
special attribute keeps the UTF-8 validity of its bytes as the
Ok-or-Err side of the Rust Result. -/
inductive OwnedAttribute where
  | boolV (v : Bool)
  | i16V (v : Int)
  | i32V (v : Int)
  | i64V (v : Int)
  | f32V (bits : Nat)
  | f64V (bits : Nat)
  | arrBool (vs : List Bool)
  | arrI32 (vs : List Int)
  | arrI64 (vs : List Int)
  | arrF32 (vs : List Nat)
  | arrF64 (vs : List Nat)
  | stringV (utf8ok : Bool) (bytes : List Byte)
  | binaryV (bytes : List Byte)
deriving Repr, DecidableEq

/-- OwnedAttribute::load_from_parser_event on a decoded attribute. -/
def OwnedAttribute.load_from_parser_event : Attr → OwnedAttribute
  | .primitive (.boolV v) => .boolV v
  | .primitive (.i16V v) => .i16V v
  | .primitive (.i32V v) => .i32V v
  | .primitive (.i64V v) => .i64V v
  | .primitive (.f32V v) => .f32V v
  | .primitive (.f64V v) => .f64V v
  | .array (.boolArr vs) => .arrBool vs
  | .array (.i32Arr vs) => .arrI32 vs
  | .array (.i64Arr vs) => .arrI64 vs
  | .array (.f32Arr vs) => .arrF32 vs
  | .array (.f64Arr vs) => .arrF64 vs
  | .special sv =>
    match sv.value_type with
    | .binary => .binaryV sv.bytes
    | .string => .stringV (validUtf8 sv.bytes) sv.bytes

/-- Generic FBX node (generic.rs, struct GenericNode). -/
inductive GenericNode where
  | mk (name : String) (attributes : List OwnedAttribute) (children : List GenericNode)
deriving Repr

/-- GenericNode::load_from_parser: load all sibling nodes (N StartNode
and N+1 EndNode-or-EndFbx events), recursing into each subtree; the
footer is kept when the loop ended on EndFbx.  The fuel only bounds the
loop and recursion depth of the embedding. -/
def GenericNode.load_from_parser (fuel : Nat) (d : Nat) (p : TParser)
    (acc : List GenericNode) :
    Except LError (List GenericNode × Option FbxFooter × TParser) :=
  match fuel with
  | 0 => .error .fuelOut
  | fuel + 1 =>
    match TParser.sub_next_event d p with
    | .error e => .error e
    | .ok (.startFbx _, p1) => GenericNode.load_from_parser fuel d p1 acc
    | .ok (.endFbx f, p1) => .ok (acc.reverse, exceptOk f, p1)
    | .ok (.endNode, p1) => .ok (acc.reverse, none, p1)
    | .ok (.startNode name attrs, p1) =>
      match GenericNode.load_from_parser fuel p1.depth p1 [] with
      | .error e => .error e
      | .ok (children, _, p2) =>
        GenericNode.load_from_parser fuel d p2
          (.mk name (attrs.map OwnedAttribute.load_from_parser_event) children :: acc)

/-- separate_name_class (fbx7400/mod.rs lines 391-394): split at the
first 0x00 0x01 separator. -/
def findNameClassSep : List Byte → Option Nat
  | [] => none
  | [_] => none
  | a :: b :: t =>
    if a = 0 ∧ b = 1 then some 0 else (findNameClassSep (b :: t)).map (fun i => i + 1)

/-- separate_name_class: the name before the separator and the class
after it, when the separator occurs. -/
def separate_name_class (v : List Byte) : Option (List Byte × List Byte) :=
  (findNameClassSep v).map (fun i => (v.take i, v.drop (i + 2)))

/-- Modelled from the spec: arr16_to_mat4x4 is called by the object
loaders (cluster.rs, pose.rs) but its definition is not among the
sources; the spec section on typed object loaders states that Transform
and TransformLink are fixed-length arrays of 16 f64 values parsed into
a 4-by-4 row-major matrix, with the non-16-length case answered as None
(the caller maps it to an invalid-attribute error). -/
def arr16_to_mat4x4 (v : List Nat) : Option (List (List Nat)) :=
  if v.length = 16 then
    some [v.take 4, (v.drop 4).take 4, (v.drop 8).take 4, (v.drop 12).take 4]
  else none


/-- load_properties70 (properties70.rs lines 104-117): every child must
be a P node, loaded into the accumulating store, its subtree skipped;
the loop ends at the EndNode of the Properties70 node. -/
def load_properties70 (fuel d : Nat) (p : TParser) (props : Properties70) :
    Except LError (Properties70 × TParser) :=
  match fuel with
  | 0 => .error .fuelOut
  | fuel + 1 =>
    match tryGetNodeAttrs d p
        (fun name attrs =>
          if name = "P" then load_property props attrs
          else .error (.unexpectedNode name)) with
    | .error e => .error e
    | .ok (none, p1) => .ok (props, p1)
    | .ok (some props1, p1) =>
      match TParser.sub_skip_current_node d p1 with
      | .error e => .error e
      | .ok (_, p2) => load_properties70 fuel d p2 props1

/-- Properties70::load over a fresh subtree parser. -/
def Properties70.load (fuel : Nat) (p : TParser) :
    Except LError (Properties70 × TParser) :=
  load_properties70 fuel p.depth p Properties70.new

/-- CreationTimeStamp (fbx_header_extension.rs). -/
structure CreationTimeStamp where
  version : Int
  year : Int
  month : Int
  day : Int
  hour : Int
  minute : Int
  second : Int
  millisecond : Int
deriving Repr, DecidableEq

/-- CreationTimeStampChildAttrs and its load. -/
inductive CreationTimeStampChildAttrs where
  | version (v : Int)
  | year (v : Int)
  | month (v : Int)
  | day (v : Int)
  | hour (v : Int)
  | minute (v : Int)
  | second (v : Int)
  | millisecond (v : Int)
deriving Repr, DecidableEq

/-- CreationTimeStampChildAttrs::load (child_attr_loader macro). -/
def CreationTimeStampChildAttrs.load (name : String) (attrs : Attrs) :
    Except LError CreationTimeStampChildAttrs :=
  match name with
  | "Version" => childAttr1 i32_from_attribute_loose name attrs .version
  | "Year" => childAttr1 i32_from_attribute_loose name attrs .year
  | "Month" => childAttr1 i32_from_attribute_loose name attrs .month
  | "Day" => childAttr1 i32_from_attribute_loose name attrs .day
  | "Hour" => childAttr1 i32_from_attribute_loose name attrs .hour
  | "Minute" => childAttr1 i32_from_attribute_loose name attrs .minute
  | "Second" => childAttr1 i32_from_attribute_loose name attrs .second
  | "Millisecond" => childAttr1 i32_from_attribute_loose name attrs .millisecond
  | _ => .error (.unexpectedNode name)

/-- The loop of CreationTimeStamp::load; the child subtree is skipped
after every arm, and the missing-node checks run in field order with
the parent-only message. -/
def creationTimeStampLoop (fuel d : Nat) (p : TParser)
    (version year month day hour minute second millisecond : Option Int) :
    Except LError (CreationTimeStamp × TParser) :=
  match fuel with
  | 0 => .error .fuelOut
  | fuel + 1 =>
    match tryGetNodeAttrs d p CreationTimeStampChildAttrs.load with
    | .error e => .error e
    | .ok (none, p1) =>
      match version, year, month, day, hour, minute, second, millisecond with
      | some v, some y, some mo, some da, some h, some mi, some sec, some ms =>
        .ok (⟨v, y, mo, da, h, mi, sec, ms⟩, p1)
      | _, _, _, _, _, _, _, _ => .error (.missingNode "CreationTimeStamp" none)
    | .ok (some nt, p1) =>
      match TParser.sub_skip_current_node d p1 with
      | .error e => .error e
      | .ok (_, p2) =>
        match nt with
        | .version v => creationTimeStampLoop fuel d p2 (some v) year month day hour minute second millisecond
        | .year v => creationTimeStampLoop fuel d p2 version (some v) month day hour minute second millisecond
        | .month v => creationTimeStampLoop fuel d p2 version year (some v) day hour minute second millisecond
        | .day v => creationTimeStampLoop fuel d p2 version year month (some v) hour minute second millisecond
        | .hour v => creationTimeStampLoop fuel d p2 version year month day (some v) minute second millisecond
        | .minute v => creationTimeStampLoop fuel d p2 version year month day hour (some v) second millisecond
        | .second v => creationTimeStampLoop fuel d p2 version year month day hour minute (some v) millisecond
        | .millisecond v => creationTimeStampLoop fuel d p2 version year month day hour minute second (some v)

/-- CreationTimeStamp::load over a fresh subtree parser. -/
def CreationTimeStamp.load (fuel : Nat) (p : TParser) :
    Except LError (CreationTimeStamp × TParser) :=
  creationTimeStampLoop fuel p.depth p none none none none none none none none

/-- MetaData (fbx_header_extension.rs). -/
structure MetaData where
  version : Int
  title : List Byte
  subject : List Byte
  author : List Byte
  keywords : List Byte
  revision : List Byte
  comment : List Byte
deriving Repr, DecidableEq

/-- MetaDataChildAttrs and its load. -/
inductive MetaDataChildAttrs where
  | version (v : Int)
  | title (v : List Byte)
  | subject (v : List Byte)
  | author (v : List Byte)
  | keywords (v : List Byte)
  | revision (v : List Byte)
  | comment (v : List Byte)
deriving Repr, DecidableEq

/-- MetaDataChildAttrs::load (child_attr_loader macro). -/
def MetaDataChildAttrs.load (name : String) (attrs : Attrs) :
    Except LError MetaDataChildAttrs :=
  match name with
  | "Version" => childAttr1 i32_from_attribute_loose name attrs .version
  | "Title" => childAttr1 string_from_attribute name attrs .title
  | "Subject" => childAttr1 string_from_attribute name attrs .subject
  | "Author" => childAttr1 string_from_attribute name attrs .author
  | "Keywords" => childAttr1 string_from_attribute name attrs .keywords
  | "Revision" => childAttr1 string_from_attribute name attrs .revision
  | "Comment" => childAttr1 string_from_attribute name attrs .comment
  | _ => .error (.unexpectedNode name)

/-- The loop of MetaData::load. -/
def metaDataLoop (fuel d : Nat) (p : TParser) (version : Option Int)
    (title subject author keywords revision comment : Option (List Byte)) :
    Except LError (MetaData × TParser) :=
  match fuel with
  | 0 => .error .fuelOut
  | fuel + 1 =>
    match tryGetNodeAttrs d p MetaDataChildAttrs.load with
    | .error e => .error e
    | .ok (none, p1) =>
      match version, title, subject, author, keywords, revision, comment with
      | some v, some t, some sj, some au, some kw, some re, some co =>
        .ok (⟨v, t, sj, au, kw, re, co⟩, p1)
      | _, _, _, _, _, _, _ => .error (.missingNode "MetaData" none)
    | .ok (some nt, p1) =>
      match TParser.sub_skip_current_node d p1 with
      | .error e => .error e
      | .ok (_, p2) =>
        match nt with
        | .version v => metaDataLoop fuel d p2 (some v) title subject author keywords revision comment
        | .title v => metaDataLoop fuel d p2 version (some v) subject author keywords revision comment
        | .subject v => metaDataLoop fuel d p2 version title (some v) author keywords revision comment
        | .author v => metaDataLoop fuel d p2 version title subject (some v) keywords revision comment
        | .keywords v => metaDataLoop fuel d p2 version title subject author (some v) revision comment
        | .revision v => metaDataLoop fuel d p2 version title subject author keywords (some v) comment
        | .comment v => metaDataLoop fuel d p2 version title subject author keywords revision (some v)

/-- MetaData::load over a fresh subtree parser. -/
def MetaData.load (fuel : Nat) (p : TParser) : Except LError (MetaData × TParser) :=
  metaDataLoop fuel p.depth p none none none none none none none

/-- SceneInfo (fbx_header_extension.rs). -/
structure SceneInfo where
  name : List Byte
  class_ : List Byte
  subclass : List Byte
  type_ : List Byte
  version : Int
  metadata : MetaData
  properties : Properties70
deriving Repr, DecidableEq

/-- SceneInfoChildAttrs and its load. -/
inductive SceneInfoChildAttrs where
  | type_ (v : List Byte)
  | version (v : Int)
  | metaData
  | properties
deriving Repr, DecidableEq

/-- SceneInfoChildAttrs::load (child_attr_loader macro). -/
def SceneInfoChildAttrs.load (name : String) (attrs : Attrs) :
    Except LError SceneInfoChildAttrs :=
  match name with
  | "Type" => childAttr1 string_from_attribute name attrs .type_
  | "Version" => childAttr1 i32_from_attribute_loose name attrs .version
  | "MetaData" => .ok .metaData
  | "Properties70" => .ok .properties
  | _ => .error (.unexpectedNode name)

/-- The loop of SceneInfo::load: Type and Version skip their subtree,
MetaData and Properties70 consume theirs through sub-loaders. -/
def sceneInfoLoop (fuel d : Nat) (p : TParser) (type_ : Option (List Byte))
    (version : Option Int) (metadata : Option MetaData)
    (properties : Option Properties70) (name class_ subclass : List Byte) :
    Except LError (SceneInfo × TParser) :=
  match fuel with
  | 0 => .error .fuelOut
  | fuel + 1 =>
    match tryGetNodeAttrs d p SceneInfoChildAttrs.load with
    | .error e => .error e
    | .ok (none, p1) =>
      match type_, version, metadata, properties with
      | some t, some v, some md, some pr => .ok (⟨name, class_, subclass, t, v, md, pr⟩, p1)
      | _, _, _, _ => .error (.missingNode "SceneInfo" none)
    | .ok (some nt, p1) =>
      match nt with
      | .type_ v =>
        match TParser.sub_skip_current_node d p1 with
        | .error e => .error e
        | .ok (_, p2) => sceneInfoLoop fuel d p2 (some v) version metadata properties name class_ subclass
      | .version v =>
        match TParser.sub_skip_current_node d p1 with
        | .error e => .error e
        | .ok (_, p2) => sceneInfoLoop fuel d p2 type_ (some v) metadata properties name class_ subclass
      | .metaData =>
        match MetaData.load fuel p1 with
        | .error e => .error e
        | .ok (md, p2) => sceneInfoLoop fuel d p2 type_ version (some md) properties name class_ subclass
      | .properties =>
        match Properties70.load fuel p1 with
        | .error e => .error e
        | .ok (pr, p2) => sceneInfoLoop fuel d p2 type_ version metadata (some pr) name class_ subclass

/-- SceneInfo::load: the two node attributes hold name-0x00-0x01-class
and the subclass; a missing separator is an invalid SceneInfo
attribute. -/
def SceneInfo.load (fuel : Nat) (p : TParser) (attrs : List Byte × List Byte) :
    Except LError (SceneInfo × TParser) :=
  match separate_name_class attrs.1 with
  | none => .error (.invalidAttribute "SceneInfo")
  | some (name, class_) =>
    sceneInfoLoop fuel p.depth p none none none none name class_ attrs.2

/-- FbxHeaderExtension (fbx_header_extension.rs). -/
structure FbxHeaderExtension where
  fbx_header_version : Int
  fbx_version : Int
  encryption_type : Int
  creation_timestamp : CreationTimeStamp
  creator : List Byte
  scene_info : SceneInfo
deriving Repr, DecidableEq

/-- FbxHeaderExtensionChildAttrs and its load. -/
inductive FbxHeaderExtensionChildAttrs where
  | fbxHeaderVersion (v : Int)
  | fbxVersion (v : Int)
  | encryptionType (v : Int)
  | creationTimeStamp
  | creator (v : List Byte)
  | sceneInfo (v : List Byte × List Byte)
deriving Repr, DecidableEq

/-- FbxHeaderExtensionChildAttrs::load (child_attr_loader macro). -/
def FbxHeaderExtensionChildAttrs.load (name : String) (attrs : Attrs) :
    Except LError FbxHeaderExtensionChildAttrs :=
  match name with
  | "FBXHeaderVersion" => childAttr1 i32_from_attribute_loose name attrs .fbxHeaderVersion
  | "FBXVersion" => childAttr1 i32_from_attribute_loose name attrs .fbxVersion
  | "EncryptionType" => childAttr1 i32_from_attribute_loose name attrs .encryptionType
  | "CreationTimeStamp" => .ok .creationTimeStamp
  | "Creator" => childAttr1 string_from_attribute name attrs .creator
  | "SceneInfo" =>
    childAttr2 string_from_attribute string_from_attribute name attrs
      (fun a b => .sceneInfo (a, b))
  | _ => .error (.unexpectedNode name)

/-- The loop of FbxHeaderExtension::load. -/
def fbxHeaderExtensionLoop (fuel d : Nat) (p : TParser)
    (fbx_header_version fbx_version encryption_type : Option Int)
    (creation_timestamp : Option CreationTimeStamp) (creator : Option (List Byte))
    (scene_info : Option SceneInfo) :
    Except LError (FbxHeaderExtension × TParser) :=
  match fuel with
  | 0 => .error .fuelOut
  | fuel + 1 =>
    match tryGetNodeAttrs d p FbxHeaderExtensionChildAttrs.load with
    | .error e => .error e
    | .ok (none, p1) =>
      match fbx_header_version, fbx_version, encryption_type, creation_timestamp,
          creator, scene_info with
      | some hv, some fv, some et, some cts, some cr, some si =>
        .ok (⟨hv, fv, et, cts, cr, si⟩, p1)
      | _, _, _, _, _, _ => .error (.missingNode "FbxHeaderExtension" none)
    | .ok (some nt, p1) =>
      match nt with
      | .fbxHeaderVersion v =>
        match TParser.sub_skip_current_node d p1 with
        | .error e => .error e
        | .ok (_, p2) =>
          fbxHeaderExtensionLoop fuel d p2 (some v) fbx_version encryption_type
            creation_timestamp creator scene_info
      | .fbxVersion v =>
        match TParser.sub_skip_current_node d p1 with
        | .error e => .error e
        | .ok (_, p2) =>
          fbxHeaderExtensionLoop fuel d p2 fbx_header_version (some v) encryption_type
            creation_timestamp creator scene_info
      | .encryptionType v =>
        match TParser.sub_skip_current_node d p1 with
        | .error e => .error e
        | .ok (_, p2) =>
          fbxHeaderExtensionLoop fuel d p2 fbx_header_version fbx_version (some v)
            creation_timestamp creator scene_info
      | .creationTimeStamp =>
        match CreationTimeStamp.load fuel p1 with
        | .error e => .error e
        | .ok (cts, p2) =>
          fbxHeaderExtensionLoop fuel d p2 fbx_header_version fbx_version encryption_type
            (some cts) creator scene_info
      | .creator v =>
        match TParser.sub_skip_current_node d p1 with
        | .error e => .error e
        | .ok (_, p2) =>
          fbxHeaderExtensionLoop fuel d p2 fbx_header_version fbx_version encryption_type
            creation_timestamp (some v) scene_info
      | .sceneInfo v =>
        match SceneInfo.load fuel p1 v with
        | .error e => .error e
        | .ok (si, p2) =>
          fbxHeaderExtensionLoop fuel d p2 fbx_header_version fbx_version encryption_type
            creation_timestamp creator (some si)

/-- FbxHeaderExtension::load over a fresh subtree parser. -/
def FbxHeaderExtension.load (fuel : Nat) (p : TParser) :
    Except LError (FbxHeaderExtension × TParser) :=
  fbxHeaderExtensionLoop fuel p.depth p none none none none none none


/-- GlobalSettings (global_settings.rs). -/
structure GlobalSettings where
  version : Int
  properties : Properties70
deriving Repr, DecidableEq

/-- GlobalSettingsChildAttrs and its load (hand-written in the source,
same shape as the macro). -/
inductive GlobalSettingsChildAttrs where
  | version (v : Int)
  | properties70
deriving Repr, DecidableEq

/-- GlobalSettingsChildAttrs::load. -/
def GlobalSettingsChildAttrs.load (name : String) (attrs : Attrs) :
    Except LError GlobalSettingsChildAttrs :=
  match name with
  | "Version" => childAttr1 i32_from_attribute_loose name attrs .version
  | "Properties70" => .ok .properties70
  | _ => .error (.unexpectedNode name)

/-- The loop of GlobalSettings::load; the missing-node messages name
"Definitions" as the parent, as in the source. -/
def globalSettingsLoop (fuel d : Nat) (p : TParser) (version : Option Int)
    (properties : Option Properties70) :
    Except LError (GlobalSettings × TParser) :=
  match fuel with
  | 0 => .error .fuelOut
  | fuel + 1 =>
    match tryGetNodeAttrs d p GlobalSettingsChildAttrs.load with
    | .error e => .error e
    | .ok (none, p1) =>
      match version, properties with
      | some v, some pr => .ok (⟨v, pr⟩, p1)
      | _, _ => .error (.missingNode "Definitions" none)
    | .ok (some nt, p1) =>
      match nt with
      | .version v =>
        match TParser.sub_skip_current_node d p1 with
        | .error e => .error e
        | .ok (_, p2) => globalSettingsLoop fuel d p2 (some v) properties
      | .properties70 =>
        match Properties70.load fuel p1 with
        | .error e => .error e
        | .ok (pr, p2) => globalSettingsLoop fuel d p2 version (some pr)

/-- GlobalSettings::load over a fresh subtree parser. -/
def GlobalSettings.load (fuel : Nat) (p : TParser) :
    Except LError (GlobalSettings × TParser) :=
  globalSettingsLoop fuel p.depth p none none

/-- load_property_template (definitions.rs lines 105-117): every child
must be a Properties70 node, loaded through a subtree parser; the last
loaded store wins, a missing one is a missing-node error. -/
def loadPropertyTemplateLoop (fuel d : Nat) (p : TParser)
    (props : Option Properties70) : Except LError (Properties70 × TParser) :=
  match fuel with
  | 0 => .error .fuelOut
  | fuel + 1 =>
    match tryGetNodeAttrs d p
        (fun name _ =>
          if name = "Properties70" then (.ok () : Except LError Unit)
          else .error (.unexpectedNode name)) with
    | .error e => .error e
    | .ok (none, p1) =>
      match props with
      | some pr => .ok (pr, p1)
      | none => .error (.missingNode "PropertyTemplate" (some "Properties70"))
    | .ok (some _, p1) =>
      match Properties70.load fuel p1 with
      | .error e => .error e
      | .ok (pr, p2) => loadPropertyTemplateLoop fuel d p2 (some pr)

/-- load_property_template over a fresh subtree parser. -/
def load_property_template (fuel : Nat) (p : TParser) :
    Except LError (Properties70 × TParser) :=
  loadPropertyTemplateLoop fuel p.depth p none

/-- ObjectType (definitions.rs); the property_template map is an
association list with most recent insertion first. -/
structure ObjectType where
  object_type : List Byte
  count : Int
  property_template : List (List Byte × Properties70)
deriving Repr, DecidableEq

/-- ObjectTypeChildAttrs and its load. -/
inductive ObjectTypeChildAttrs where
  | count (v : Int)
  | propertyTemplate (v : List Byte)
deriving Repr, DecidableEq

/-- ObjectTypeChildAttrs::load (child_attr_loader macro). -/
def ObjectTypeChildAttrs.load (name : String) (attrs : Attrs) :
    Except LError ObjectTypeChildAttrs :=
  match name with
  | "Count" => childAttr1 i32_from_attribute_loose name attrs .count
  | "PropertyTemplate" => childAttr1 string_from_attribute name attrs .propertyTemplate
  | _ => .error (.unexpectedNode name)

/-- The loop of ObjectType::load. -/
def objectTypeLoop (fuel d : Nat) (p : TParser) (count : Option Int)
    (property_template : List (List Byte × Properties70)) (object_type : List Byte) :
    Except LError (ObjectType × TParser) :=
  match fuel with
  | 0 => .error .fuelOut
  | fuel + 1 =>
    match tryGetNodeAttrs d p ObjectTypeChildAttrs.load with
    | .error e => .error e
    | .ok (none, p1) =>
      match count with
      | some c => .ok (⟨object_type, c, property_template⟩, p1)
      | none => .error (.missingNode "ObjectType" (some "Count"))
    | .ok (some nt, p1) =>
      match nt with
      | .count v =>
        match TParser.sub_skip_current_node d p1 with
        | .error e => .error e
        | .ok (_, p2) => objectTypeLoop fuel d p2 (some v) property_template object_type
      | .propertyTemplate tname =>
        match load_property_template fuel p1 with
        | .error e => .error e
        | .ok (pr, p2) =>
          objectTypeLoop fuel d p2 count ((tname, pr) :: property_template) object_type

/-- ObjectType::load over a fresh subtree parser. -/
def ObjectType.load (fuel : Nat) (p : TParser) (attrs : List Byte) :
    Except LError (ObjectType × TParser) :=
  objectTypeLoop fuel p.depth p none [] attrs

/-- Definitions (definitions.rs). -/
structure Definitions where
  version : Int
  count : Int
  object_types : List ObjectType
deriving Repr, DecidableEq

/-- DefinitionsChildAttrs and its load. -/
inductive DefinitionsChildAttrs where
  | count (v : Int)
  | version (v : Int)
  | objectType (v : List Byte)
deriving Repr, DecidableEq

/-- DefinitionsChildAttrs::load (child_attr_loader macro). -/
def DefinitionsChildAttrs.load (name : String) (attrs : Attrs) :
    Except LError DefinitionsChildAttrs :=
  match name with
  | "Count" => childAttr1 i32_from_attribute_loose name attrs .count
  | "Version" => childAttr1 i32_from_attribute_loose name attrs .version
  | "ObjectType" => childAttr1 string_from_attribute name attrs .objectType
  | _ => .error (.unexpectedNode name)

/-- The loop of Definitions::load; object types accumulate in order. -/
def definitionsLoop (fuel d : Nat) (p : TParser) (version count : Option Int)
    (object_types : List ObjectType) :
    Except LError (Definitions × TParser) :=
  match fuel with
  | 0 => .error .fuelOut
  | fuel + 1 =>
    match tryGetNodeAttrs d p DefinitionsChildAttrs.load with
    | .error e => .error e
    | .ok (none, p1) =>
      match version with
      | none => .error (.missingNode "Definitions" (some "Version"))
      | some v =>
        match count with
        | none => .error (.missingNode "Definitions" (some "Count"))
        | some c => .ok (⟨v, c, object_types.reverse⟩, p1)
    | .ok (some nt, p1) =>
      match nt with
      | .version v =>
        match TParser.sub_skip_current_node d p1 with
        | .error e => .error e
        | .ok (_, p2) => definitionsLoop fuel d p2 (some v) count object_types
      | .count v =>
        match TParser.sub_skip_current_node d p1 with
        | .error e => .error e
        | .ok (_, p2) => definitionsLoop fuel d p2 version (some v) object_types
      | .objectType oname =>
        match ObjectType.load fuel p1 oname with
        | .error e => .error e
        | .ok (ot, p2) => definitionsLoop fuel d p2 version count (ot :: object_types)

/-- Definitions::load over a fresh subtree parser. -/
def Definitions.load (fuel : Nat) (p : TParser) :
    Except LError (Definitions × TParser) :=
  definitionsLoop fuel p.depth p none none []

/-- ConnectionAttrs (connections.rs): attributes of one C node. -/
structure ConnectionAttrs where
  source_id : Int
  destination_id : Int
  property : Option (List Byte)
  source_is_prop : Bool
  destination_is_prop : Bool
deriving Repr, DecidableEq

/-- ConnectionAttrs::load: a C node carries (type, source, destination)
as (String, i64, i64); the 2-letter type code selects the
property-endpoint flags ("OO" is bytes 79 79, "OP" 79 80, "PO" 80 79,
"PP" 80 80); a fourth attribute, when present, is the property name. -/
def ConnectionAttrs.load (name : String) (attrs0 : Attrs) :
    Except LError ConnectionAttrs :=
  if name = "C" then
    match fromAttrs3 string_from_attribute i64_from_attribute_loose
        i64_from_attribute_loose attrs0 with
    | (.error e, _) => .error (.parse e)
    | (.ok none, _) => .error (.invalidAttribute "C")
    | (.ok (some (ty, sid, did)), attrs1) =>
      match (if ty = [79, 79] then .ok (false, false)
             else if ty = [79, 80] then .ok (false, true)
             else if ty = [80, 79] then .ok (true, false)
             else if ty = [80, 80] then .ok (true, true)
             else .error (.invalidAttribute "C") : Except LError (Bool × Bool)) with
      | .error e => .error e
      | .ok (sp, dp) =>
        if attrs1.rest_attributes > 0 then
          match fromAttrs1 string_from_attribute attrs1 with
          | (.error e, _) => .error (.parse e)
          | (.ok none, _) => .error (.invalidAttribute "C")
          | (.ok (some prop), _) => .ok ⟨sid, did, some prop, sp, dp⟩
        else .ok ⟨sid, did, none, sp, dp⟩
  else .error (.unexpectedNode name)

/-- Connection (connections.rs). -/
structure Connection where
  source : Int
  destination : Int
  property : Option (List Byte)
  source_is_prop : Bool
  destination_is_prop : Bool
deriving Repr, DecidableEq

/-- Connection::load: skip the C node subtree and keep the attributes. -/
def Connection.load (p : TParser) (attrs : ConnectionAttrs) :
    Except LError (Connection × TParser) :=
  match TParser.sub_skip_current_node p.depth p with
  | .error e => .error e
  | .ok (_, p1) =>
    .ok (⟨attrs.source_id, attrs.destination_id, attrs.property,
          attrs.source_is_prop, attrs.destination_is_prop⟩, p1)

/-- Connections (connections.rs). -/
structure Connections where
  connections : List Connection
deriving Repr, DecidableEq

/-- The loop of Connections::load. -/
def connectionsLoop (fuel d : Nat) (p : TParser) (acc : List Connection) :
    Except LError (Connections × TParser) :=
  match fuel with
  | 0 => .error .fuelOut
  | fuel + 1 =>
    match tryGetNodeAttrs d p ConnectionAttrs.load with
    | .error e => .error e
    | .ok (none, p1) => .ok (⟨acc.reverse⟩, p1)
    | .ok (some ca, p1) =>
      match Connection.load p1 ca with
      | .error e => .error e
      | .ok (c, p2) => connectionsLoop fuel d p2 (c :: acc)

/-- Connections::load over a fresh subtree parser. -/
def Connections.load (fuel : Nat) (p : TParser) :
    Except LError (Connections × TParser) :=
  connectionsLoop fuel p.depth p []

/-- Take (takes.rs). -/
structure Take where
  name : List Byte
  filename : List Byte
  local_time : Int × Int
  reference_time : Int × Int
deriving Repr, DecidableEq

/-- TakeChildAttrs and its load. -/
inductive TakeChildAttrs where
  | fileName (v : List Byte)
  | localTime (v : Int × Int)
  | referenceTime (v : Int × Int)
deriving Repr, DecidableEq

/-- TakeChildAttrs::load (child_attr_loader macro). -/
def TakeChildAttrs.load (name : String) (attrs : Attrs) :
    Except LError TakeChildAttrs :=
  match name with
  | "FileName" => childAttr1 string_from_attribute name attrs .fileName
  | "LocalTime" =>
    childAttr2 i64_from_attribute_loose i64_from_attribute_loose name attrs
      (fun a b => .localTime (a, b))
  | "ReferenceTime" =>
    childAttr2 i64_from_attribute_loose i64_from_attribute_loose name attrs
      (fun a b => .referenceTime (a, b))
  | _ => .error (.unexpectedNode name)

/-- The loop of Take::load. -/
def takeLoop (fuel d : Nat) (p : TParser) (filename : Option (List Byte))
    (local_time reference_time : Option (Int × Int)) (name : List Byte) :
    Except LError (Take × TParser) :=
  match fuel with
  | 0 => .error .fuelOut
  | fuel + 1 =>
    match tryGetNodeAttrs d p TakeChildAttrs.load with
    | .error e => .error e
    | .ok (none, p1) =>
      match filename, local_time, reference_time with
      | some fn, some lt, some rt => .ok (⟨name, fn, lt, rt⟩, p1)
      | _, _, _ => .error (.missingNode "Take" none)
    | .ok (some nt, p1) =>
      match TParser.sub_skip_current_node d p1 with
      | .error e => .error e
      | .ok (_, p2) =>
        match nt with
        | .fileName v => takeLoop fuel d p2 (some v) local_time reference_time name
        | .localTime v => takeLoop fuel d p2 filename (some v) reference_time name
        | .referenceTime v => takeLoop fuel d p2 filename local_time (some v) name

/-- Take::load over a fresh subtree parser. -/
def Take.load (fuel : Nat) (p : TParser) (attrs : List Byte) :
    Except LError (Take × TParser) :=
  takeLoop fuel p.depth p none none none attrs

/-- Takes (takes.rs). -/
structure Takes where
  current : List Byte
  takes : List Take
deriving Repr, DecidableEq

/-- TakesChildAttrs and its load. -/
inductive TakesChildAttrs where
  | current (v : List Byte)
  | take (v : List Byte)
deriving Repr, DecidableEq

/-- TakesChildAttrs::load (child_attr_loader macro). -/
def TakesChildAttrs.load (name : String) (attrs : Attrs) :
    Except LError TakesChildAttrs :=
  match name with
  | "Current" => childAttr1 string_from_attribute name attrs .current
  | "Take" => childAttr1 string_from_attribute name attrs .take
  | _ => .error (.unexpectedNode name)

/-- The loop of Takes::load; the missing-node message names "Current"
as in the source. -/
def takesLoop (fuel d : Nat) (p : TParser) (current : Option (List Byte))
    (takes : List Take) : Except LError (Takes × TParser) :=
  match fuel with
  | 0 => .error .fuelOut
  | fuel + 1 =>
    match tryGetNodeAttrs d p TakesChildAttrs.load with
    | .error e => .error e
    | .ok (none, p1) =>
      match current with
      | some c => .ok (⟨c, takes.reverse⟩, p1)
      | none => .error (.missingNode "Current" none)
    | .ok (some nt, p1) =>
      match nt with
      | .current v =>
        match TParser.sub_skip_current_node d p1 with
        | .error e => .error e
        | .ok (_, p2) => takesLoop fuel d p2 (some v) takes
      | .take tname =>
        match Take.load fuel p1 tname with
        | .error e => .error e
        | .ok (t, p2) => takesLoop fuel d p2 current (t :: takes)

/-- Takes::load over a fresh subtree parser. -/
def Takes.load (fuel : Nat) (p : TParser) : Except LError (Takes × TParser) :=
  takesLoop fuel p.depth p none []


/-- ObjectProperties (objects/mod.rs): id plus name, class and subclass
split out of the second attribute. -/
structure ObjectProperties where
  id : Int
  name : List Byte
  class_ : List Byte
  subclass : List Byte
deriving Repr, DecidableEq

/-- ObjectProperties from_attributes (objects/mod.rs lines 64-81):
(i64, String, String), then split the name-class string; a missing
separator answers None. -/
def ObjectProperties.from_attributes (a : Attrs) :
    Except Err (Option ObjectProperties) × Attrs :=
  match fromAttrs3 i64_from_attribute_loose string_from_attribute
      string_from_attribute a with
  | (.error e, a1) => (.error e, a1)
  | (.ok none, a1) => (.ok none, a1)
  | (.ok (some (id, name_class, subclass)), a1) =>
    (.ok ((separate_name_class name_class).map
        (fun nc => ⟨id, nc.1, nc.2, subclass⟩)), a1)

/-- load_object_property (objects/mod.rs lines 244-254), the attribute
loader the Objects child loop uses. -/
def load_object_property (name : String) (attrs : Attrs) :
    Except LError ObjectProperties :=
  match ObjectProperties.from_attributes attrs with
  | (.error e, _) => .error (.parse e)
  | (.ok none, _) => .error (.invalidAttribute name)
  | (.ok (some v), _) => .ok v

/-- Cluster (objects/cluster.rs); matrices are 4 rows of 4 f64 bit
patterns, and the Indexes/Weights pair is present only together. -/
structure Cluster where
  id : Int
  version : Int
  user_data : List Byte × List Byte
  indexes_and_weights : Option (List Int × List Nat)
  transform : List (List Nat)
  transform_link : List (List Nat)
deriving Repr, DecidableEq

/-- ClusterChildAttrs and its load. -/
inductive ClusterChildAttrs where
  | version (v : Int)
  | userData (v : List Byte × List Byte)
  | indexes (v : List Int)
  | weights (v : List Nat)
  | transform (v : List Nat)
  | transformLink (v : List Nat)
deriving Repr, DecidableEq

/-- ClusterChildAttrs::load (child_attr_loader macro). -/
def ClusterChildAttrs.load (name : String) (attrs : Attrs) :
    Except LError ClusterChildAttrs :=
  match name with
  | "Version" => childAttr1 i32_from_attribute_loose name attrs .version
  | "UserData" =>
    childAttr2 string_from_attribute string_from_attribute name attrs
      (fun a b => .userData (a, b))
  | "Indexes" => childAttr1 veci32_from_attribute name attrs .indexes
  | "Weights" => childAttr1 vecf64_from_attribute_loose name attrs .weights
  | "Transform" => childAttr1 vecf64_from_attribute_loose name attrs .transform
  | "TransformLink" => childAttr1 vecf64_from_attribute_loose name attrs .transformLink
  | _ => .error (.unexpectedNode name)

/-- The parent string of the cluster missing-node errors, the expansion
of node_msg!(Deformer, SubDeformer, Cluster). -/
def clusterNodeMsg : String := "Deformer (class=`SubDeformer`, subclass=`Cluster`)"

/-- The loop and finalisation of Cluster::load (cluster.rs lines
32-106): children accumulate; a Transform or TransformLink array that
is not 16 elements long fails at once; at the EndNode the
Indexes/Weights cross-check runs before the missing-node checks, and
both-present lists of different lengths, or exactly one present, are
Inconsistent errors. -/
def clusterLoop (fuel d : Nat) (p : TParser) (version : Option Int)
    (user_data : Option (List Byte × List Byte)) (indexes : Option (List Int))
    (weights : Option (List Nat)) (transform transform_link : Option (List (List Nat)))
    (obj_id : Int) : Except LError (Cluster × TParser) :=
  match fuel with
  | 0 => .error .fuelOut
  | fuel + 1 =>
    match tryGetNodeAttrs d p ClusterChildAttrs.load with
    | .error e => .error e
    | .ok (none, p1) =>
      match ((match indexes, weights with
             | some i, some w =>
               if i.length ≠ w.length then
                 .error (.inconsistent "Lengths differs between `Indexes` and `Weights`")
               else .ok (some (i, w))
             | some _, none =>
               .error (.inconsistent "`Indexes` found but `Weights` not found")
             | none, some _ =>
               .error (.inconsistent "`Indexes` not found but `Weights` found")
             | none, none => .ok none) :
           Except LError (Option (List Int × List Nat))) with
      | .error e => .error e
      | .ok iw =>
        match version with
        | none => .error (.missingNode clusterNodeMsg none)
        | some v =>
          match user_data with
          | none => .error (.missingNode clusterNodeMsg none)
          | some ud =>
            match transform with
            | none => .error (.missingNode clusterNodeMsg none)
            | some tr =>
              match transform_link with
              | none => .error (.missingNode clusterNodeMsg none)
              | some trl => .ok (⟨obj_id, v, ud, iw, tr, trl⟩, p1)
    | .ok (some nt, p1) =>
      match ((match nt with
             | .version v =>
               .ok (some v, user_data, indexes, weights, transform, transform_link)
             | .userData v =>
               .ok (version, some v, indexes, weights, transform, transform_link)
             | .indexes v =>
               .ok (version, user_data, some v, weights, transform, transform_link)
             | .weights v =>
               .ok (version, user_data, indexes, some v, transform, transform_link)
             | .transform v =>
               match arr16_to_mat4x4 v with
               | none => .error (.invalidAttribute "Transform")
               | some m => .ok (version, user_data, indexes, weights, some m, transform_link)
             | .transformLink v =>
               match arr16_to_mat4x4 v with
               | none => .error (.invalidAttribute "TransformLink")
               | some m => .ok (version, user_data, indexes, weights, transform, some m)) :
           Except LError (Option Int × Option (List Byte × List Byte) ×
             Option (List Int) × Option (List Nat) × Option (List (List Nat)) ×
             Option (List (List Nat)))) with
      | .error e => .error e
      | .ok (v1, u1, i1, w1, t1, tl1) =>
        match TParser.sub_skip_current_node d p1 with
        | .error e => .error e
        | .ok (_, p2) => clusterLoop fuel d p2 v1 u1 i1 w1 t1 tl1 obj_id

/-- Cluster::load over a fresh subtree parser. -/
def Cluster.load (fuel : Nat) (p : TParser) (obj_props : ObjectProperties) :
    Except LError (Cluster × TParser) :=
  clusterLoop fuel p.depth p none none none none none none obj_props.id

/-- FileId::load: skip the node, keep the attribute bytes. -/
def FileId.load (p : TParser) (attrs : List Byte) :
    Except LError (List Byte × TParser) :=
  match TParser.sub_skip_current_node p.depth p with
  | .error e => .error e
  | .ok (_, p1) => .ok (attrs, p1)

/-- CreationTime::load: skip the node, keep the attribute string. -/
def CreationTime.load (p : TParser) (attrs : List Byte) :
    Except LError (List Byte × TParser) :=
  match TParser.sub_skip_current_node p.depth p with
  | .error e => .error e
  | .ok (_, p1) => .ok (attrs, p1)

/-- Creator::load: skip the node, keep the attribute string. -/
def Creator.load (p : TParser) (attrs : List Byte) :
    Except LError (List Byte × TParser) :=
  match TParser.sub_skip_current_node p.depth p with
  | .error e => .error e
  | .ok (_, p1) => .ok (attrs, p1)

/-- Documents (fbx7400/mod.rs): generic child nodes. -/
structure Documents where
  nodes : List GenericNode
deriving Repr

/-- Documents::load. -/
def Documents.load (fuel : Nat) (p : TParser) : Except LError (Documents × TParser) :=
  match GenericNode.load_from_parser fuel p.depth p [] with
  | .error e => .error e
  | .ok (nodes, _, p1) => .ok (⟨nodes⟩, p1)

/-- References (fbx7400/mod.rs): generic child nodes. -/
structure References where
  nodes : List GenericNode
deriving Repr

/-- References::load. -/
def References.load (fuel : Nat) (p : TParser) : Except LError (References × TParser) :=
  match GenericNode.load_from_parser fuel p.depth p [] with
  | .error e => .error e
  | .ok (nodes, _, p1) => .ok (⟨nodes⟩, p1)

/-- NodeType (fbx7400/mod.rs lines 266-316). -/
inductive NodeType where
  | fbxHeaderExtension
  | fileId (v : List Byte)
  | creationTime (v : List Byte)
  | creator (v : List Byte)
  | globalSettings
  | documents
  | references
  | definitions
  | objects
  | connections
  | takes
deriving Repr, DecidableEq

/-- NodeType::load: dispatch on the top-level node name; FileId,
CreationTime and Creator read their single attribute here. -/
def NodeType.load (name : String) (attrs : Attrs) : Except LError NodeType :=
  match name with
  | "FBXHeaderExtension" => .ok .fbxHeaderExtension
  | "FileId" => childAttr1 vecu8_from_attribute_loose name attrs .fileId
  | "CreationTime" => childAttr1 string_from_attribute name attrs .creationTime
  | "Creator" => childAttr1 string_from_attribute name attrs .creator
  | "GlobalSettings" => .ok .globalSettings
  | "Documents" => .ok .documents
  | "References" => .ok .references
  | "Definitions" => .ok .definitions
  | "Objects" => .ok .objects
  | "Connections" => .ok .connections
  | "Takes" => .ok .takes
  | _ => .error (.unexpectedNode name)

/-- NodesBeforeObjects (fbx7400/mod.rs lines 244-263). -/
structure NodesBeforeObjects where
  version : Nat
  fbx_header_extension : FbxHeaderExtension
  file_id : List Byte
  creation_time : List Byte
  creator : List Byte
  references : References
  global_settings : GlobalSettings
  documents : Documents
  definitions : Definitions
deriving Repr

/-- The loop of load_objects (fbx7400/mod.rs lines 398-410),
instantiated with the collector objects loader.  Modelled from the
spec: the LoadObjects7400 trait is re-exported but missing from the
sources; the spec describes the caller-provided objects loader by its
operations load_object(props, subtree) and build().  The collector
records each ObjectProperties without consuming subtree events, so each
object subtree is consumed by the skip_to_end call of load_objects, and
build answers the recorded list. -/
def loadObjectsLoop (fuel d : Nat) (p : TParser) (acc : List ObjectProperties) :
    Except LError (List ObjectProperties × TParser) :=
  match fuel with
  | 0 => .error .fuelOut
  | fuel + 1 =>
    match tryGetNodeAttrs d p load_object_property with
    | .error e => .error e
    | .ok (none, p1) => .ok (acc.reverse, p1)
    | .ok (some props, p1) =>
      match TParser.skip_to_end p1.depth p1 with
      | .error e => .error e
      | .ok p2 => loadObjectsLoop fuel d p2 (props :: acc)

/-- load_objects over a fresh subtree parser. -/
def load_objects (fuel : Nat) (p : TParser) :
    Except LError (List ObjectProperties × TParser) :=
  loadObjectsLoop fuel p.depth p []

/-- Fbx7400 (fbx7400/mod.rs lines 89-118), with the collector objects
loader: objects is the list of recorded ObjectProperties. -/
structure Fbx7400 where
  version : Nat
  fbx_header_extension : FbxHeaderExtension
  file_id : List Byte
  creation_time : List Byte
  creator : List Byte
  references : References
  global_settings : GlobalSettings
  documents : Documents
  definitions : Definitions
  objects : List ObjectProperties
  connections : Connections
  takes : Option Takes
  footer : Option FbxFooter
deriving Repr

/-- The loop of Fbx7400::load_from_parser (lines 142-216).  The Bool in
the result records whether the "Multiple Objects node found, ignoring."
log line fired.  At the Objects arm with the objects loader still
available, the eight accumulated sections are taken (checked in the
order the NodesBeforeObjects literal evaluates, each absence a (root)
missing-node error) and the Objects subtree is loaded; with the loader
already taken, the code only logs and continues the loop without
touching the parser, leaving the Objects subtree unskipped. -/
def fbx7400Loop (fuel : Nat) (version : Nat) (p : TParser)
    (objs_loader : Option Unit)
    (fbx_header_extension : Option FbxHeaderExtension)
    (file_id creation_time creator : Option (List Byte))
    (global_settings : Option GlobalSettings) (documents : Option Documents)
    (references : Option References) (definitions : Option Definitions)
    (objects_and_before : Option (List ObjectProperties × NodesBeforeObjects))
    (connections : Option Connections) (takes : Option Takes)
    (warned_multi : Bool) : Except LError (Fbx7400 × Bool × TParser) :=
  match fuel with
  | 0 => .error .fuelOut
  | fuel + 1 =>
    match TParser.next_event p with
    | .error e => .error e
    | .ok (.startFbx _, _) => .error .panicked
    | .ok (.endNode, _) => .error .panicked
    | .ok (.endFbx f, p1) =>
      match objects_and_before with
      | none => .error (.missingNode "(root)" (some "Objects"))
      | some (objects, nb) =>
        match connections with
        | none => .error (.missingNode "(root)" (some "Connections"))
        | some conns =>
          .ok (⟨version, nb.fbx_header_extension, nb.file_id, nb.creation_time,
                nb.creator, nb.references, nb.global_settings, nb.documents,
                nb.definitions, objects, conns, takes, exceptOk f⟩, warned_multi, p1)
    | .ok (.startNode name nattrs, p1) =>
      match NodeType.load name ⟨nattrs⟩ with
      | .error e => .error e
      | .ok nt =>
        match nt with
        | .fbxHeaderExtension =>
          match FbxHeaderExtension.load fuel p1 with
          | .error e => .error e
          | .ok (v, p2) =>
            fbx7400Loop fuel version p2 objs_loader (some v) file_id creation_time
              creator global_settings documents references definitions
              objects_and_before connections takes warned_multi
        | .fileId a =>
          match FileId.load p1 a with
          | .error e => .error e
          | .ok (v, p2) =>
            fbx7400Loop fuel version p2 objs_loader fbx_header_extension (some v)
              creation_time creator global_settings documents references definitions
              objects_and_before connections takes warned_multi
        | .creationTime a =>
          match CreationTime.load p1 a with
          | .error e => .error e
          | .ok (v, p2) =>
            fbx7400Loop fuel version p2 objs_loader fbx_header_extension file_id
              (some v) creator global_settings documents references definitions
              objects_and_before connections takes warned_multi
        | .creator a =>
          match Creator.load p1 a with
          | .error e => .error e
          | .ok (v, p2) =>
            fbx7400Loop fuel version p2 objs_loader fbx_header_extension file_id
              creation_time (some v) global_settings documents references definitions
              objects_and_before connections takes warned_multi
        | .globalSettings =>
          match GlobalSettings.load fuel p1 with
          | .error e => .error e
          | .ok (v, p2) =>
            fbx7400Loop fuel version p2 objs_loader fbx_header_extension file_id
              creation_time creator (some v) documents references definitions
              objects_and_before connections takes warned_multi
        | .documents =>
          match Documents.load fuel p1 with
          | .error e => .error e
          | .ok (v, p2) =>
            fbx7400Loop fuel version p2 objs_loader fbx_header_extension file_id
              creation_time creator global_settings (some v) references definitions
              objects_and_before connections takes warned_multi
        | .references =>
          match References.load fuel p1 with
          | .error e => .error e
          | .ok (v, p2) =>
            fbx7400Loop fuel version p2 objs_loader fbx_header_extension file_id
              creation_time creator global_settings documents (some v) definitions
              objects_and_before connections takes warned_multi
        | .definitions =>
          match Definitions.load fuel p1 with
          | .error e => .error e
          | .ok (v, p2) =>
            fbx7400Loop fuel version p2 objs_loader fbx_header_extension file_id
              creation_time creator global_settings documents references (some v)
              objects_and_before connections takes warned_multi
        | .objects =>
          match objs_loader with
          | some _ =>
            match fbx_header_extension with
            | none => .error (.missingNode "(root)" (some "FBXHeaderExtension"))
            | some fhe =>
              match file_id with
              | none => .error (.missingNode "(root)" (some "FileId"))
              | some fid =>
                match creation_time with
                | none => .error (.missingNode "(root)" (some "CreationTime"))
                | some ct =>
                  match creator with
                  | none => .error (.missingNode "(root)" (some "Creator"))
                  | some cr =>
                    match global_settings with
                    | none => .error (.missingNode "(root)" (some "GlobalSettings"))
                    | some gs =>
                      match documents with
                      | none => .error (.missingNode "(root)" (some "Documents"))
                      | some docs =>
                        match references with
                        | none => .error (.missingNode "(root)" (some "References"))
                        | some refs =>
                          match definitions with
                          | none => .error (.missingNode "(root)" (some "Definitions"))
                          | some defs =>
                            match load_objects fuel p1 with
                            | .error e => .error e
                            | .ok (objs, p2) =>
                              fbx7400Loop fuel version p2 none none none none none
                                none none none none
                                (some (objs, ⟨version, fhe, fid, ct, cr, refs, gs,
                                  docs, defs⟩))
                                connections takes warned_multi
          | none =>
            fbx7400Loop fuel version p1 none fbx_header_extension file_id
              creation_time creator global_settings documents references definitions
              objects_and_before connections takes true
        | .connections =>
          match Connections.load fuel p1 with
          | .error e => .error e
          | .ok (v, p2) =>
            fbx7400Loop fuel version p2 objs_loader fbx_header_extension file_id
              creation_time creator global_settings documents references definitions
              objects_and_before (some v) takes warned_multi
        | .takes =>
          match Takes.load fuel p1 with
          | .error e => .error e
          | .ok (v, p2) =>
            fbx7400Loop fuel version p2 objs_loader fbx_header_extension file_id
              creation_time creator global_settings documents references definitions
              objects_and_before connections (some v) warned_multi

/-- Fbx7400::load_from_parser, entered with the objects loader
available and every section accumulator empty. -/
def Fbx7400.load_from_parser (fuel : Nat) (version : Nat) (p : TParser) :
    Except LError (Fbx7400 × Bool × TParser) :=
  fbx7400Loop fuel version p (some ()) none none none none none none none none
    none none none false


/-! Concrete documents and subtrees for the loader claims. -/

/-- Events of a complete FBXHeaderExtension section. -/
def evFHE : List TEvent := [
  .startNode "FBXHeaderExtension" [],
  .startNode "FBXHeaderVersion" [.primitive (.i32V 1003)], .endNode,
  .startNode "FBXVersion" [.primitive (.i32V 7400)], .endNode,
  .startNode "EncryptionType" [.primitive (.i32V 0)], .endNode,
  .startNode "CreationTimeStamp" [],
  .startNode "Version" [.primitive (.i32V 1000)], .endNode,
  .startNode "Year" [.primitive (.i32V 2020)], .endNode,
  .startNode "Month" [.primitive (.i32V 1)], .endNode,
  .startNode "Day" [.primitive (.i32V 2)], .endNode,
  .startNode "Hour" [.primitive (.i32V 3)], .endNode,
  .startNode "Minute" [.primitive (.i32V 4)], .endNode,
  .startNode "Second" [.primitive (.i32V 5)], .endNode,
  .startNode "Millisecond" [.primitive (.i32V 6)], .endNode,
  .endNode,
  .startNode "Creator" [.special ⟨.string, [67]⟩], .endNode,
  .startNode "SceneInfo" [.special ⟨.string, [83, 0, 1, 84]⟩, .special ⟨.string, [85]⟩],
  .startNode "Type" [.special ⟨.string, [85]⟩], .endNode,
  .startNode "Version" [.primitive (.i32V 100)], .endNode,
  .startNode "MetaData" [],
  .startNode "Version" [.primitive (.i32V 100)], .endNode,
  .startNode "Title" [.special ⟨.string, []⟩], .endNode,
  .startNode "Subject" [.special ⟨.string, []⟩], .endNode,
  .startNode "Author" [.special ⟨.string, []⟩], .endNode,
  .startNode "Keywords" [.special ⟨.string, []⟩], .endNode,
  .startNode "Revision" [.special ⟨.string, []⟩], .endNode,
  .startNode "Comment" [.special ⟨.string, []⟩], .endNode,
  .endNode,
  .startNode "Properties70" [], .endNode,
  .endNode,
  .endNode]

/-- Events of every top-level section a conforming document needs
before Objects. -/
def evPre : List TEvent := evFHE ++ [
  .startNode "FileId" [.special ⟨.binary, [1, 2]⟩], .endNode,
  .startNode "CreationTime" [.special ⟨.string, [67]⟩], .endNode,
  .startNode "Creator" [.special ⟨.string, [67]⟩], .endNode,
  .startNode "GlobalSettings" [],
  .startNode "Version" [.primitive (.i32V 1000)], .endNode,
  .startNode "Properties70" [], .endNode,
  .endNode,
  .startNode "Documents" [], .endNode,
  .startNode "References" [], .endNode,
  .startNode "Definitions" [],
  .startNode "Version" [.primitive (.i32V 100)], .endNode,
  .startNode "Count" [.primitive (.i32V 1)], .endNode,
  .endNode]

/-- An Objects section holding a single Model object (name "M", class
"N", subclass "O"). -/
def evObjects : List TEvent := [
  .startNode "Objects" [],
  .startNode "Model" [.primitive (.i64V 1), .special ⟨.string, [77, 0, 1, 78]⟩,
    .special ⟨.string, [79]⟩], .endNode,
  .endNode]

/-- The closing sections: an empty Connections node and the EndFbx
event with a well-read footer. -/
def evTail : List TEvent := [
  .startNode "Connections" [], .endNode,
  .endFbx (.ok ⟨[], 7400, []⟩)]

/-- A conforming document with exactly one Objects node. -/
def docSingleObjects : List TEvent := evPre ++ evObjects ++ evTail

/-- The same document with the Objects node duplicated. -/
def docDoubleObjects : List TEvent := evPre ++ evObjects ++ evObjects ++ evTail

/-- The loaded value of docSingleObjects. -/
def fbxSingleExpected : Fbx7400 :=
  ⟨7400,
   ⟨1003, 7400, 0, ⟨1000, 2020, 1, 2, 3, 4, 5, 6⟩, [67],
    ⟨[83], [84], [85], [85], 100, ⟨100, [], [], [], [], [], []⟩, Properties70.new⟩⟩,
   [1, 2], [67], [67], ⟨[]⟩, ⟨1000, Properties70.new⟩, ⟨[]⟩, ⟨100, 1, []⟩,
   [⟨1, [77], [78], [79]⟩], ⟨[]⟩, none, some ⟨[], 7400, []⟩⟩

/-- A 16-element f64 array for the cluster matrices. -/
def mat16 : List Nat := List.range 16

/-- arr16_to_mat4x4 of mat16. -/
def mat4 : List (List Nat) := [[0, 1, 2, 3], [4, 5, 6, 7], [8, 9, 10, 11], [12, 13, 14, 15]]

/-- Children of a Cluster object node with all required children plus
Indexes and Weights arrays, as seen by Cluster::load at depth 1. -/
def clusterEventsIW (i : List Int) (w : List Nat) : List TEvent := [
  .startNode "Version" [.primitive (.i32V 1000)], .endNode,
  .startNode "UserData" [.special ⟨.string, [85]⟩, .special ⟨.string, [86]⟩], .endNode,
  .startNode "Indexes" [.array (.i32Arr i)], .endNode,
  .startNode "Weights" [.array (.f64Arr w)], .endNode,
  .startNode "Transform" [.array (.f64Arr mat16)], .endNode,
  .startNode "TransformLink" [.array (.f64Arr mat16)], .endNode,
  .endNode]

/-- The same children without Indexes and Weights. -/
def clusterEventsNoIW : List TEvent := [
  .startNode "Version" [.primitive (.i32V 1000)], .endNode,
  .startNode "UserData" [.special ⟨.string, [85]⟩, .special ⟨.string, [86]⟩], .endNode,
  .startNode "Transform" [.array (.f64Arr mat16)], .endNode,
  .startNode "TransformLink" [.array (.f64Arr mat16)], .endNode,
  .endNode]

set_option maxHeartbeats 2000000 in
/-- Cluster::load on the Indexes-and-Weights subtree computes down to
the cross-field consistency check, which alone decides the result. -/
theorem clusterIW_reduce (i : List Int) (w : List Nat) (op : ObjectProperties) :
    Cluster.load 10 ⟨clusterEventsIW i w, 1⟩ op =
      (match (if i.length ≠ w.length then
          (.error (.inconsistent "Lengths differs between `Indexes` and `Weights`") :
            Except LError (Option (List Int × List Nat)))
        else .ok (some (i, w))) with
       | .error e => .error e
       | .ok iw => .ok (⟨op.id, 1000, ([85], [86]), iw, mat4, mat4⟩, ⟨[], 0⟩)) := rfl

set_option maxHeartbeats 2000000 in
/-- Claim C9: Cluster::load fails with the Inconsistent error when the
Indexes and Weights arrays have different lengths, and when exactly one
of the two is present; with both present at equal lengths it succeeds
and stores the pair, and with both absent it succeeds storing none
(other required children present in each success case). -/
theorem claim_c9_cluster_consistency :
    (∀ (i : List Int) (w : List Nat) (op : ObjectProperties),
      i.length ≠ w.length →
      Cluster.load 10 ⟨clusterEventsIW i w, 1⟩ op =
        .error (.inconsistent "Lengths differs between `Indexes` and `Weights`")) ∧
    (∀ (i : List Int) (op : ObjectProperties),
      Cluster.load 10
          ⟨[.startNode "Indexes" [.array (.i32Arr i)], .endNode, .endNode], 1⟩ op =
        .error (.inconsistent "`Indexes` found but `Weights` not found")) ∧
    (∀ (w : List Nat) (op : ObjectProperties),
      Cluster.load 10
          ⟨[.startNode "Weights" [.array (.f64Arr w)], .endNode, .endNode], 1⟩ op =
        .error (.inconsistent "`Indexes` not found but `Weights` found")) ∧
    (∀ (i : List Int) (w : List Nat) (op : ObjectProperties),
      i.length = w.length →
      Cluster.load 10 ⟨clusterEventsIW i w, 1⟩ op =
        .ok (⟨op.id, 1000, ([85], [86]), some (i, w), mat4, mat4⟩, ⟨[], 0⟩)) ∧
    (∀ (op : ObjectProperties),
      Cluster.load 10 ⟨clusterEventsNoIW, 1⟩ op =
        .ok (⟨op.id, 1000, ([85], [86]), none, mat4, mat4⟩, ⟨[], 0⟩)) := by
  refine ⟨?_, ?_, ?_, ?_, ?_⟩
  · intro i w op h
    rw [clusterIW_reduce, if_pos h]
  · intro i op
    rfl
  · intro w op
    rfl
  · intro i w op h
    rw [clusterIW_reduce, if_neg (fun hc => hc h)]
  · intro op
    rfl

/-- Witness for claim C9: a 2-element Indexes with a 1-element Weights
is rejected as inconsistent; matching 2-element arrays load and store
the pair. -/
theorem claim_c9_witness :
    Cluster.load 10 ⟨clusterEventsIW [1, 2] [5], 1⟩ ⟨7, [77], [78], [79]⟩ =
      .error (.inconsistent "Lengths differs between `Indexes` and `Weights`") ∧
    Cluster.load 10 ⟨clusterEventsIW [1, 2] [5, 6], 1⟩ ⟨7, [77], [78], [79]⟩ =
      .ok (⟨7, 1000, ([85], [86]), some ([1, 2], [5, 6]), mat4, mat4⟩, ⟨[], 0⟩) :=
  ⟨claim_c9_cluster_consistency.1 [1, 2] [5] ⟨7, [77], [78], [79]⟩ (by decide),
   claim_c9_cluster_consistency.2.2.2.1 [1, 2] [5, 6] ⟨7, [77], [78], [79]⟩ (by decide)⟩

set_option maxHeartbeats 2000000 in
/-- Claim C10 counterexample: on a conforming document whose Objects
node appears twice, the loader does not skip the second Objects node:
its Model child is dispatched as a top-level node and the load fails
with UnexpectedNode("Model") instead of succeeding. -/
theorem claim_c10_counterexample :
    Fbx7400.load_from_parser 99 7400 ⟨docDoubleObjects, 0⟩ =
      .error (.unexpectedNode "Model") := by rfl

set_option maxHeartbeats 2000000 in
/-- Claim C10 amended: a conforming single-Objects document loads, with
the objects taken from that node; at a later Objects node the loop only
logs the multiple-Objects warning and continues without skipping the
subtree, so when the later Objects node has a child the loop next
dispatches that child as a top-level node, and when it is empty the
loop hits its unreachable arm on the EndNode. -/
theorem claim_c10_amended :
    (Fbx7400.load_from_parser 99 7400 ⟨docSingleObjects, 0⟩ =
      .ok (fbxSingleExpected, false, ⟨[], 0⟩)) ∧
    (∀ (fuel version d : Nat) (rest : List TEvent)
      (fhe : Option FbxHeaderExtension) (fid ct cr : Option (List Byte))
      (gs : Option GlobalSettings) (docs : Option Documents) (refs : Option References)
      (defs : Option Definitions)
      (oab : Option (List ObjectProperties × NodesBeforeObjects))
      (conns : Option Connections) (tks : Option Takes) (w : Bool),
      fbx7400Loop (fuel + 1) version ⟨.startNode "Objects" [] :: rest, d⟩ none
          fhe fid ct cr gs docs refs defs oab conns tks w =
        fbx7400Loop fuel version ⟨rest, d + 1⟩ none
          fhe fid ct cr gs docs refs defs oab conns tks true) ∧
    (∀ (fuel version d : Nat) (rest : List TEvent)
      (fhe : Option FbxHeaderExtension) (fid ct cr : Option (List Byte))
      (gs : Option GlobalSettings) (docs : Option Documents) (refs : Option References)
      (defs : Option Definitions)
      (oab : Option (List ObjectProperties × NodesBeforeObjects))
      (conns : Option Connections) (tks : Option Takes) (w : Bool),
      fbx7400Loop (fuel + 2) version ⟨.startNode "Objects" [] :: .endNode :: rest, d⟩ none
          fhe fid ct cr gs docs refs defs oab conns tks w = .error .panicked) := by
  refine ⟨by rfl, ?_, ?_⟩
  · intro fuel version d rest fhe fid ct cr gs docs refs defs oab conns tks w
    rfl
  · intro fuel version d rest fhe fid ct cr gs docs refs defs oab conns tks w
    rfl

end Fbx
